/-
  Verification of the goalgen core subsystems: the spec validator
  (src/spec_validator.py) and the generation manifest / incremental
  regeneration engine (src/manifest.py).

  The Python code is shallowly embedded: Python dynamic values are the
  mutual inductive `PyVal`/`PyList`/`PyDict` (dicts are insertion-ordered
  association lists with string keys, as JSON documents are); Python
  exceptions are modelled by `PyErr` and an explicit error component
  threaded through each validation sub-check; machine hashing (SHA-256)
  is implemented directly on byte lists.

  Model boundaries, stated once here:
  * Python `float` values are carried as rationals; float comparisons are
    exact, and the textual repr of a float (used only inside some
    diagnostic message strings and in JSON serialization) is rendered as
    "num/den" rather than Python's shortest-round-trip decimal repr.  No
    theorem below depends on the rendering of a float.
  * Python `set` iteration order is not modelled; functions returning
    `list(set_a - set_b)` are modelled as order-preserving filters and
    the corresponding claims are stated at the set (Finset) level.
  * JSON persistence of the manifest (json.dumps / json.loads round-trip
    through the file `.goalgen/manifest.json`) is modelled as identity:
    `load` of a previously saved manifest returns that manifest value.
  * File-system paths are lists of components; `out_dir` is taken to be
    an absolute path.
-/
import Mathlib

set_option maxRecDepth 4000

/-! ## String utilities (ASCII, code-point lexicographic order) -/

/-- Decimal digit characters for rendering naturals. -/
def digitChar (n : Nat) : Char := Char.ofNat (48 + n % 10)

/-- Decimal rendering of a natural, fuel-based so that it is structurally
recursive (and hence kernel-computable). -/
def natDigits : Nat → Nat → List Char
  | 0, _ => []
  | fuel + 1, n => if n < 10 then [digitChar n] else natDigits fuel (n / 10) ++ [digitChar (n % 10)]

/-- Decimal rendering of a natural number, as Python `str(n)`. -/
def natRepr (n : Nat) : String := String.mk (natDigits (n + 1) n)

/-- Decimal rendering of an integer, as Python `str(i)`. -/
def intRepr : Int → String
  | .ofNat n => natRepr n
  | .negSucc m => "-" ++ natRepr (m + 1)

/-- Code-point lexicographic `≤` on character lists: the order Python uses
to compare strings (and hence to sort dict keys in `json.dumps(sort_keys=True)`). -/
def charsLe : List Char → List Char → Bool
  | [], _ => true
  | _ :: _, [] => false
  | a :: as, b :: bs =>
    if a.toNat < b.toNat then true
    else if b.toNat < a.toNat then false
    else charsLe as bs

/-- Code-point lexicographic `≤` on strings. -/
def strLe (a b : String) : Bool := charsLe a.data b.data

theorem charsLe_total : ∀ a b : List Char, charsLe a b = false → charsLe b a = true := by
  intro a
  induction a with
  | nil => intro b h; simp [charsLe] at h
  | cons x xs ih =>
    intro b h
    cases b with
    | nil => simp [charsLe]
    | cons y ys =>
      simp only [charsLe] at h ⊢
      by_cases h1 : x.toNat < y.toNat
      · simp [h1] at h
      · by_cases h2 : y.toNat < x.toNat
        · simp [h2]
        · rw [if_neg h1, if_neg h2] at h
          rw [if_neg h2, if_neg h1]
          exact ih ys h

theorem strLe_total (a b : String) (h : strLe a b = false) : strLe b a = true :=
  charsLe_total a.data b.data h

/-! ## Python values

A mutual (rather than nested) inductive so that every function over it is
structurally recursive and therefore reducible by the kernel in
`decide`/`rfl` proofs. -/

mutual

inductive PyVal where
  | none : PyVal
  | bool (b : Bool) : PyVal
  | int (n : Int) : PyVal
  | float (q : Rat) : PyVal
  | str (s : String) : PyVal
  | list (xs : PyList) : PyVal
  | dict (kvs : PyDict) : PyVal

inductive PyList where
  | nil : PyList
  | cons (hd : PyVal) (tl : PyList) : PyList

inductive PyDict where
  | nil : PyDict
  | cons (k : String) (v : PyVal) (tl : PyDict) : PyDict

end

/-- Python exception kinds raised by the embedded code. -/
inductive PyErr where
  | attributeError : PyErr
  | typeError : PyErr
  | valueError : PyErr
  | keyError : PyErr
deriving DecidableEq

namespace PyDict

/-- Dict lookup (Python dicts have unique keys; first match). -/
def lookup : PyDict → String → Option PyVal
  | .nil, _ => Option.none
  | .cons k v tl, key => if k = key then some v else lookup tl key

/-- The keys of a dict, in insertion order (Python `d.keys()`). -/
def keys : PyDict → List String
  | .nil => []
  | .cons k _ tl => k :: keys tl

/-- The values of a dict, in insertion order (Python `d.values()`). -/
def values : PyDict → List PyVal
  | .nil => []
  | .cons _ v tl => v :: values tl

/-- Number of entries (Python `len(d)`). -/
def length : PyDict → Nat
  | .nil => 0
  | .cons _ _ tl => length tl + 1

end PyDict

namespace PyList

/-- Number of elements (Python `len(l)`). -/
def length : PyList → Nat
  | .nil => 0
  | .cons _ tl => length tl + 1

/-- The elements as a Lean list. -/
def toList : PyList → List PyVal
  | .nil => []
  | .cons x tl => x :: toList tl

end PyList

/-- `type(v).__name__` in Python. -/
def pyTypeName : PyVal → String
  | .none => "NoneType"
  | .bool _ => "bool"
  | .int _ => "int"
  | .float _ => "float"
  | .str _ => "str"
  | .list _ => "list"
  | .dict _ => "dict"

/-- Python truthiness (`bool(v)`). -/
def pyTruthy : PyVal → Bool
  | .none => false
  | .bool b => b
  | .int n => n ≠ 0
  | .float q => q ≠ 0
  | .str s => s ≠ ""
  | .list .nil => false
  | .list _ => true
  | .dict .nil => false
  | .dict _ => true

/-- Numeric view used by Python `==` and `<`/`>` across `bool`/`int`/`float`
(`True == 1`, `1 == 1.0`). -/
def pyNum : PyVal → Option Rat
  | .bool b => some (if b then 1 else 0)
  | .int n => some (n : Rat)
  | .float q => some q
  | _ => Option.none

/- Structural size, used as fuel for Python `==` (whose dict case is not
structurally recursive because it looks values up by key). -/
mutual

def sizeV : PyVal → Nat
  | .list xs => sizeL xs + 1
  | .dict d => sizeD d + 1
  | _ => 1

def sizeL : PyList → Nat
  | .nil => 1
  | .cons x tl => sizeV x + sizeL tl + 1

def sizeD : PyDict → Nat
  | .nil => 1
  | .cons _ v tl => sizeV v + sizeD tl + 1

end

/-- Python `==`, with fuel (see `sizeV`).  Dict equality in Python is
key-set based and order-insensitive: both dicts must have the same length
and every key of the first must map to an equal value in the second. -/
def pyEqF : Nat → PyVal → PyVal → Bool
  | 0, _, _ => false
  | _ + 1, .none, .none => true
  | _ + 1, .str a, .str b => a = b
  | fuel + 1, .list xs, .list ys => pyEqListF fuel xs ys
  | fuel + 1, .dict a, .dict b =>
    a.length = b.length && pyEqDictF fuel a b
  | _ + 1, a, b =>
    match pyNum a, pyNum b with
    | some x, some y => x = y
    | _, _ => false
where
  pyEqListF : Nat → PyList → PyList → Bool
    | 0, _, _ => false
    | _ + 1, .nil, .nil => true
    | fuel + 1, .cons x xs, .cons y ys => pyEqF fuel x y && pyEqListF fuel xs ys
    | _ + 1, _, _ => false
  pyEqDictF : Nat → PyDict → PyDict → Bool
    | 0, _, _ => false
    | _ + 1, .nil, _ => true
    | fuel + 1, .cons k v tl, b =>
      (match b.lookup k with
       | some w => pyEqF fuel v w
       | Option.none => false) && pyEqDictF fuel tl b

/-- Python `==` on embedded values. -/
def pyEq (a b : PyVal) : Bool := pyEqF (sizeV a + sizeV b) a b

/- Python `repr`, used by `str()` on containers (and so by f-strings that
interpolate container values).  Strings are rendered with single quotes;
escaping inside reprs is not modelled (no diagnostic in any claim
interpolates a string needing escapes). -/
mutual

def pyRepr : PyVal → String
  | .none => "None"
  | .bool b => if b then "True" else "False"
  | .int n => intRepr n
  | .float q => intRepr q.num ++ "/" ++ natRepr q.den
  | .str s => "'" ++ s ++ "'"
  | .list xs => "[" ++ pyReprList xs ++ "]"
  | .dict d => "\x7b" ++ pyReprDict d ++ "\x7d"

def pyReprList : PyList → String
  | .nil => ""
  | .cons x .nil => pyRepr x
  | .cons x tl => pyRepr x ++ ", " ++ pyReprList tl

def pyReprDict : PyDict → String
  | .nil => ""
  | .cons k v .nil => "'" ++ k ++ "': " ++ pyRepr v
  | .cons k v tl => "'" ++ k ++ "': " ++ pyRepr v ++ ", " ++ pyReprDict tl

end

/-- Python `str(v)`, as used by f-string interpolation. -/
def pyStr : PyVal → String
  | .str s => s
  | v => pyRepr v

/-- Substring test on character lists (`needle` occurs contiguously in
`hay`), mirroring Python's `needle in hay` for strings. -/
def subAt : List Char → List Char → Bool
  | [], _ => true
  | _ :: _, [] => false
  | n :: ns, h :: hs => (decide (n = h) && leadMatch ns hs) || subAt (n :: ns) hs
where
  leadMatch : List Char → List Char → Bool
    | [], _ => true
    | _ :: _, [] => false
    | n :: ns, h :: hs => decide (n = h) && leadMatch ns hs

/-- Python `k in v` for a string `k`: key test on dicts, `==`-based
membership on lists, substring test on strings, `TypeError` otherwise. -/
def pyContains (v : PyVal) (k : String) : Except PyErr Bool :=
  match v with
  | .dict d => .ok (d.lookup k).isSome
  | .list xs => .ok (containsList xs)
  | .str s => .ok (subAt k.data s.data)
  | _ => .error .typeError
where
  containsList : PyList → Bool
    | .nil => false
    | .cons x tl => pyEq (.str k) x || containsList tl

/-- Python `v[k]` for a string key `k`: dict lookup (`KeyError` if the key
is absent), `TypeError` on strings/lists (string indices must be
integers), `TypeError` otherwise. -/
def pySubscript (v : PyVal) (k : String) : Except PyErr PyVal :=
  match v with
  | .dict d =>
    match d.lookup k with
    | some w => .ok w
    | Option.none => .error .keyError
  | _ => .error .typeError

/-- Python `v.get(k)` / `v.get(k, dflt)`: only dicts have `.get`;
`AttributeError` otherwise. -/
def pyGet (v : PyVal) (k : String) (dflt : PyVal) : Except PyErr PyVal :=
  match v with
  | .dict d => .ok ((d.lookup k).getD dflt)
  | _ => .error .attributeError

/-- Python `v.keys()` materialized as a list of strings; `AttributeError`
on non-dicts. -/
def pyKeys (v : PyVal) : Except PyErr (List String) :=
  match v with
  | .dict d => .ok d.keys
  | _ => .error .attributeError

/-- Python `len(v)`; `TypeError` for values without a length. -/
def pyLen (v : PyVal) : Except PyErr Nat :=
  match v with
  | .str s => .ok s.length
  | .list xs => .ok xs.length
  | .dict d => .ok d.length
  | _ => .error .typeError

/-- Python `enumerate(v)` materialized: lists enumerate elements, strings
enumerate one-character strings, dicts enumerate keys; `TypeError`
otherwise. -/
def pyIter (v : PyVal) : Except PyErr (List PyVal) :=
  match v with
  | .list xs => .ok xs.toList
  | .str s => .ok (s.data.map fun c => .str (String.mk [c]))
  | .dict d => .ok (d.keys.map PyVal.str)
  | _ => .error .typeError

/-! ## Diagnostic model (src/spec_validator.py, `Severity` / `ValidationIssue`) -/

/-- Validation issue severity levels. -/
inductive Severity where
  | ERROR : Severity
  | WARNING : Severity
  | INFO : Severity
deriving DecidableEq

/-- A single validation issue. -/
structure ValidationIssue where
  severity : Severity
  path : String
  message : String
  suggestion : Option String
deriving DecidableEq

/-- Result of running a validation sub-check: the issues it appended (in
order) and, if it raised, the exception.  Mirrors the fact that in the
source each sub-check mutates `self.issues` and an uncaught exception
aborts `validate` while keeping the issues appended so far. -/
abbrev VRes := List ValidationIssue × Option PyErr

/-- A sub-check that appends nothing and raises nothing. -/
def vok : VRes := ([], Option.none)

/-- Append one issue without a suggestion (`_add_issue` with default). -/
def vAdd (sev : Severity) (path msg : String) : VRes :=
  ([⟨sev, path, msg, Option.none⟩], Option.none)

/-- Append one issue with a suggestion. -/
def vAddS (sev : Severity) (path msg sugg : String) : VRes :=
  ([⟨sev, path, msg, some sugg⟩], Option.none)

/-- Run `a`, then—if it did not raise—run `b` (statement sequencing). -/
def vseq (a b : VRes) : VRes :=
  match a with
  | (is, some e) => (is, some e)
  | (is, Option.none) => (is ++ b.1, b.2)

/-- Bind a possibly-raising Python expression into a sub-check. -/
def vtry {α : Type} (x : Except PyErr α) (k : α → VRes) : VRes :=
  match x with
  | .error e => ([], some e)
  | .ok v => k v

/-- Python `for` loop over a list of items. -/
def vfor {α : Type} : List α → (α → VRes) → VRes
  | [], _ => vok
  | x :: rest, f => vseq (f x) (vfor rest f)

/-- Python `for idx, x in enumerate(...)` starting at index `i`. -/
def vforIdx (i : Nat) (l : List PyVal) (f : Nat → PyVal → VRes) : VRes :=
  match l with
  | [] => vok
  | x :: rest => vseq (f i x) (vforIdx (i + 1) rest f)

/-! ## Character classes and the two regexes of the validator

`re.match(r'^[a-z][a-z0-9_]*$', s)` and
`re.match(r'^\d+\.\d+\.\d+(-[a-zA-Z0-9.]+)?$', s)`, implemented as direct
scanners (the character classes involved are disjoint from the literal
separators, so greedy maximal-munch is equivalent to the regex).  Python's
`$` also matches just before a single trailing newline; that corner is not
modelled (no claim involves identifiers or versions with trailing
newlines). -/

def isLowerAlpha (c : Char) : Bool := 'a' ≤ c && c ≤ 'z'

def isUpperAlpha (c : Char) : Bool := 'A' ≤ c && c ≤ 'Z'

def isDigitCh (c : Char) : Bool := '0' ≤ c && c ≤ '9'

def isIdentCh (c : Char) : Bool := isLowerAlpha c || isDigitCh c || c = '_'

/-- `^[a-z][a-z0-9_]*$` -/
def matchIdent (s : String) : Bool :=
  match s.data with
  | [] => false
  | c :: rest => isLowerAlpha c && rest.all isIdentCh

/-- Characters allowed in a semver prerelease tag: `[a-zA-Z0-9.]`. -/
def isPreCh (c : Char) : Bool := isLowerAlpha c || isUpperAlpha c || isDigitCh c || c = '.'

/-- `^\d+\.\d+\.\d+(-[a-zA-Z0-9.]+)?$` -/
def matchSemver (s : String) : Bool :=
  match s.data.span isDigitCh with
  | ([], _) => false
  | (_ :: _, '.' :: r1) =>
    match r1.span isDigitCh with
    | ([], _) => false
    | (_ :: _, '.' :: r2) =>
      match r2.span isDigitCh with
      | ([], _) => false
      | (_ :: _, []) => true
      | (_ :: _, '-' :: r3) => !r3.isEmpty && r3.all isPreCh
      | (_ :: _, _) => false
    | (_ :: _, _) => false
  | (_ :: _, _) => false

/-- ASCII `str.upper()` (the validator only uppercases HTTP verbs). -/
def upperAscii (s : String) : String :=
  String.mk (s.data.map fun c => if isLowerAlpha c then Char.ofNat (c.toNat - 32) else c)

/-- ASCII `str.lower()` (used only inside suggestion strings). -/
def lowerAscii (s : String) : String :=
  String.mk (s.data.map fun c => if isUpperAlpha c then Char.ofNat (c.toNat + 32) else c)

/-- `str.replace(a, b)` for one-character arguments. -/
def replChar (a b : Char) (s : String) : String :=
  String.mk (s.data.map fun c => if c = a then b else c)

/-- isinstance(v, dict) -/
def isDictV : PyVal → Bool
  | .dict _ => true
  | _ => false

/-- isinstance(v, list) -/
def isListV : PyVal → Bool
  | .list _ => true
  | _ => false

/-- isinstance(v, str) -/
def isStrV : PyVal → Bool
  | .str _ => true
  | _ => false

/-- isinstance(v, (int, float)) — `bool` is a subclass of `int` in Python. -/
def isNumV (v : PyVal) : Bool := (pyNum v).isSome

/-- isinstance(v, int) — includes `bool`. -/
def isIntV : PyVal → Bool
  | .int _ => true
  | .bool _ => true
  | _ => false

/-- The integer value of an `int`-instance (used for `max_tokens > 4096`). -/
def intOf : PyVal → Int
  | .int n => n
  | .bool b => if b then 1 else 0
  | _ => 0

/-- Membership of a value in a Python list of string literals (`x in
["a", "b"]`), by Python `==`. -/
def pyMemStrs (v : PyVal) (names : List String) : Bool :=
  names.any fun n => pyEq v (.str n)

/-- Membership of a value in a Python `set` of strings: sets hash their
query, so unhashable values (lists, dicts) raise `TypeError`. -/
def setContains (names : List String) (v : PyVal) : Except PyErr Bool :=
  match v with
  | .list _ => .error .typeError
  | .dict _ => .error .typeError
  | _ => .ok (names.any fun n => pyEq v (.str n))

/-- `any(agent.get("kind") == "supervisor" for agent in agents.values())`:
short-circuits on the first supervisor, raises `AttributeError` at the
first non-dict agent value reached. -/
def anySupervisor : PyDict → Except PyErr Bool
  | .nil => .ok false
  | .cons _ v tl =>
    match v with
    | .dict d =>
      if pyEq ((d.lookup "kind").getD .none) (.str "supervisor") then .ok true
      else anySupervisor tl
    | _ => .error .attributeError

/-- `any(valid in model for valid in valid_models)`: short-circuits, and
raises `TypeError` if `model` does not support `in` (e.g. an int). -/
def anyContainedIn (v : PyVal) : List String → Except PyErr Bool
  | [] => .ok false
  | n :: rest =>
    match pyContains v n with
    | .error e => .error e
    | .ok true => .ok true
    | .ok false => anyContainedIn v rest

/-- Entries of a dict in insertion order (Python `d.items()`). -/
def PyDict.entries : PyDict → List (String × PyVal)
  | .nil => []
  | .cons k v tl => (k, v) :: entries tl

/-- `v.items()`; `AttributeError` on non-dicts. -/
def pyItems (v : PyVal) : Except PyErr (List (String × PyVal)) :=
  match v with
  | .dict d => .ok d.entries
  | _ => .error .attributeError

/-! ## The Spec Validator (src/spec_validator.py, class SpecValidator) -/

namespace SpecValidator

/-- `_validate_required_fields`. -/
def validate_required_fields (spec : PyVal) : VRes :=
  vfor ["id", "title", "version", "agents"] fun field =>
    vtry (pyContains spec field) fun h =>
      if h then vok
      else vAddS .ERROR ("root." ++ field) ("Required field '" ++ field ++ "' is missing")
        ("Add '" ++ field ++ "' to the root of your spec")

/-- `_validate_id`. -/
def validate_id (spec : PyVal) : VRes :=
  vtry (pyContains spec "id") fun h =>
  if h then
    vtry (pySubscript spec "id") fun specId =>
    match specId with
    | .str s =>
      if s = "" then vAdd .ERROR "root.id" "ID cannot be empty"
      else
        vseq
          (if matchIdent s then vok
           else vAddS .ERROR "root.id"
             "ID must start with lowercase letter and contain only lowercase letters, numbers, and underscores"
             ("Example: '" ++ replChar ' ' '_' (replChar '-' '_' (lowerAscii s)) ++ "'"))
          (if s.length > 50 then
             vAdd .WARNING "root.id"
               ("ID is very long (" ++ natRepr s.length ++ " chars). Consider shortening for better usability")
           else vok)
    | _ => vAdd .ERROR "root.id" ("ID must be a string, got " ++ pyTypeName specId)
  else vok

/-- `_validate_version`. -/
def validate_version (spec : PyVal) : VRes :=
  vtry (pyContains spec "version") fun h =>
  if h then
    vtry (pySubscript spec "version") fun version =>
    match version with
    | .str s =>
      if matchSemver s then vok
      else vAddS .ERROR "root.version"
        ("Version '" ++ s ++ "' is not valid semantic version (x.y.z)")
        "Example: '1.0.0' or '1.0.0-alpha'"
    | _ => vAdd .ERROR "root.version" ("Version must be a string, got " ++ pyTypeName version)
  else vok

/-- `_validate_supervisor_agent`. -/
def validate_supervisor_agent (name : String) (cfg : PyVal) : VRes :=
  vtry (pyContains cfg "policy") fun h =>
    if h then vok
    else vAddS .INFO ("agents." ++ name ++ ".policy")
      "Supervisor should specify routing policy" "Recommended: 'policy': 'simple_router'"

/-- `_validate_llm_agent`. -/
def validate_llm_agent (name : String) (cfg : PyVal) : VRes :=
  let path := "agents." ++ name
  vseq
    (vtry (pyContains cfg "llm_config") fun h =>
      if h then vok
      else vAddS .WARNING (path ++ ".llm_config")
        "LLM agent should specify llm_config with model"
        "Example: 'llm_config': \x7b'model': 'gpt-4'\x7d")
    (vtry (pyContains cfg "tools") fun h =>
      if h then
        vtry (pySubscript cfg "tools") fun tools =>
          if isListV tools then vok
          else vAdd .ERROR (path ++ ".tools") ("Tools must be a list, got " ++ pyTypeName tools)
      else vok)

/-- `_validate_evaluator_agent`. -/
def validate_evaluator_agent (name : String) (cfg : PyVal) : VRes :=
  vtry (pyContains cfg "checks") fun h =>
    if h then vok
    else vAdd .WARNING ("agents." ++ name ++ ".checks") "Evaluator should specify checks to perform"

/-- `_validate_llm_config`. -/
def validate_llm_config (path : String) (lc : PyVal) : VRes :=
  match lc with
  | .dict d =>
    vseq
      (match d.lookup "model" with
       | some model =>
         vtry (anyContainedIn model ["gpt-4", "gpt-4-turbo", "gpt-4o", "gpt-4o-mini", "gpt-3.5-turbo"]) fun ok =>
           if ok then vok
           else vAddS .WARNING (path ++ ".model")
             ("Unknown model '" ++ pyStr model ++ "'. May not be supported.")
             "Common models: gpt-4, gpt-4-turbo, gpt-4o, gpt-4o-mini, gpt-3.5-turbo"
       | Option.none => vAdd .WARNING (path ++ ".model") "llm_config should specify model")
      (vseq
        (match d.lookup "temperature" with
         | some temp =>
           match pyNum temp with
           | some q =>
             if q < 0 ∨ q > 2 then
               vAdd .WARNING (path ++ ".temperature")
                 ("Temperature " ++ pyStr temp ++ " is outside typical range (0-2)")
             else vok
           | Option.none =>
             vAdd .ERROR (path ++ ".temperature")
               ("Temperature must be a number, got " ++ pyTypeName temp)
         | Option.none => vok)
        (match d.lookup "max_tokens" with
         | some mt =>
           if isIntV mt then
             if intOf mt > 4096 then
               vAdd .INFO (path ++ ".max_tokens")
                 ("max_tokens " ++ pyStr mt ++ " is very high. May increase costs.")
             else vok
           else vAdd .ERROR (path ++ ".max_tokens")
             ("max_tokens must be an integer, got " ++ pyTypeName mt)
         | Option.none => vok))
  | _ => vAdd .ERROR path ("llm_config must be a dict, got " ++ pyTypeName lc)

/-- `_validate_agent`. -/
def validate_agent (name : String) (cfg : PyVal) : VRes :=
  let path := "agents." ++ name
  vseq
    (if matchIdent name then vok
     else vAddS .WARNING path
       ("Agent name '" ++ name ++ "' should be lowercase with underscores")
       ("Example: '" ++ replChar '-' '_' (lowerAscii name) ++ "'"))
    (vtry (pyContains cfg "kind") fun hasKind =>
      if hasKind then
        vtry (pySubscript cfg "kind") fun kind =>
          vseq
            (if pyMemStrs kind ["supervisor", "llm_agent", "evaluator"] then vok
             else vAddS .ERROR (path ++ ".kind")
               ("Invalid agent kind '" ++ pyStr kind ++ "'")
               "Valid kinds: supervisor, llm_agent, evaluator")
            (vseq
              (if pyEq kind (.str "supervisor") then validate_supervisor_agent name cfg
               else if pyEq kind (.str "llm_agent") then validate_llm_agent name cfg
               else if pyEq kind (.str "evaluator") then validate_evaluator_agent name cfg
               else vok)
              (vtry (pyContains cfg "llm_config") fun h =>
                if h then
                  vtry (pySubscript cfg "llm_config") fun lc =>
                    validate_llm_config (path ++ ".llm_config") lc
                else vok))
      else vAddS .ERROR (path ++ ".kind") "Agent must have 'kind' field"
        "Valid kinds: 'supervisor', 'llm_agent', 'evaluator'")

/-- `_validate_agents`. -/
def validate_agents (spec : PyVal) : VRes :=
  vtry (pyContains spec "agents") fun h =>
  if h then
    vtry (pySubscript spec "agents") fun agents =>
    match agents with
    | .dict .nil => vAdd .ERROR "agents" "Agents dict cannot be empty. At least one agent required."
    | .dict d =>
      vseq
        (vtry (anySupervisor d) fun sup =>
          if sup then vok
          else vAddS .ERROR "agents" "At least one supervisor agent is required"
            "Add an agent with 'kind': 'supervisor'")
        (vfor d.entries fun p => validate_agent p.1 p.2)
    | _ => vAdd .ERROR "agents" ("Agents must be a dict, got " ++ pyTypeName agents)
  else vok

/-- `_validate_http_tool`. -/
def validate_http_tool (name : String) (cfg : PyVal) : VRes :=
  let path := "tools." ++ name
  vtry (pyContains cfg "spec") fun h =>
  if h then
    vtry (pySubscript cfg "spec") fun sp =>
    vseq
      (vtry (pyContains sp "url") fun hu =>
        if hu then vok else vAdd .ERROR (path ++ ".spec.url") "HTTP tool must specify 'url'")
      (vtry (pyContains sp "method") fun hm =>
        if hm then
          vtry (pySubscript sp "method") fun method =>
          match method with
          | .str m =>
            if (upperAscii m) ∈ ["GET", "POST", "PUT", "DELETE", "PATCH", "HEAD", "OPTIONS"] then vok
            else vAddS .WARNING (path ++ ".spec.method")
              ("Unusual HTTP method '" ++ m ++ "'")
              "Common methods: GET, POST, PUT, DELETE, PATCH, HEAD, OPTIONS"
          | _ => ([], some .attributeError)
        else vAddS .ERROR (path ++ ".spec.method") "HTTP tool must specify 'method'"
          "Valid methods: GET, POST, PUT, DELETE, PATCH")
  else vAdd .ERROR (path ++ ".spec") "HTTP tool must have 'spec' field"

/-- `_validate_sql_tool`. -/
def validate_sql_tool (name : String) (cfg : PyVal) : VRes :=
  let path := "tools." ++ name
  vtry (pyContains cfg "spec") fun h =>
  if h then
    vtry (pySubscript cfg "spec") fun sp =>
    vtry (pyContains sp "connection_string") fun c1 =>
    if c1 then vok
    else
      vtry (pyContains sp "database_type") fun c2 =>
      if c2 then vok
      else vAdd .WARNING (path ++ ".spec")
        "SQL tool should specify 'connection_string' or 'database_type'"
  else vAdd .ERROR (path ++ ".spec") "SQL tool must have 'spec' field"

/-- `_validate_vectordb_tool`. -/
def validate_vectordb_tool (name : String) (cfg : PyVal) : VRes :=
  let path := "tools." ++ name
  vtry (pyContains cfg "spec") fun h =>
  if h then
    vtry (pySubscript cfg "spec") fun sp =>
    vtry (pyContains sp "provider") fun hp =>
    if hp then vok
    else vAddS .WARNING (path ++ ".spec.provider") "VectorDB tool should specify 'provider'"
      "Examples: 'azure_ai_search', 'pinecone', 'weaviate', 'qdrant', 'chroma'"
  else vAdd .ERROR (path ++ ".spec") "VectorDB tool must have 'spec' field"

/-- `_validate_tool`. -/
def validate_tool (name : String) (cfg : PyVal) : VRes :=
  let path := "tools." ++ name
  match cfg with
  | .dict d =>
    match d.lookup "type" with
    | some t =>
      vseq
        (if pyMemStrs t ["http", "sql", "vectordb", "function", "internal"] then vok
         else vAddS .ERROR (path ++ ".type") ("Invalid tool type '" ++ pyStr t ++ "'")
           "Valid types: http, sql, vectordb, function, internal")
        (if pyEq t (.str "http") then validate_http_tool name cfg
         else if pyEq t (.str "sql") then validate_sql_tool name cfg
         else if pyEq t (.str "vectordb") then validate_vectordb_tool name cfg
         else vok)
    | Option.none =>
      vAddS .ERROR (path ++ ".type") "Tool must have 'type' field"
        "Valid types: 'http', 'sql', 'vectordb', 'function'"
  | _ => vAdd .ERROR path ("Tool config must be a dict, got " ++ pyTypeName cfg)

/-- `_validate_tools`. -/
def validate_tools (spec : PyVal) : VRes :=
  vtry (pyContains spec "tools") fun h =>
  if h then
    vtry (pySubscript spec "tools") fun tools =>
    match tools with
    | .dict d => vfor d.entries fun p => validate_tool p.1 p.2
    | _ => vAdd .ERROR "tools" ("Tools must be a dict, got " ++ pyTypeName tools)
  else vok

/-- `_validate_task`. -/
def validate_task (idx : Nat) (task : PyVal) : VRes :=
  let path := "tasks[" ++ natRepr idx ++ "]"
  match task with
  | .dict d =>
    vseq
      (if (d.lookup "id").isSome then vok
       else vAdd .ERROR (path ++ ".id") "Task must have 'id' field")
      (vseq
        (if (d.lookup "type").isSome then vok
         else vAddS .ERROR (path ++ ".type") "Task must have 'type' field"
           "Valid types: 'task', 'evaluator'")
        (match d.lookup "agent" with
         | some a =>
           if isStrV a then vok
           else vAdd .ERROR (path ++ ".agent") ("Task agent must be a string, got " ++ pyTypeName a)
         | Option.none => vok))
  | _ => vAdd .ERROR path ("Task must be a dict, got " ++ pyTypeName task)

/-- `_validate_tasks`. -/
def validate_tasks (spec : PyVal) : VRes :=
  vtry (pyContains spec "tasks") fun h =>
  if h then
    vtry (pySubscript spec "tasks") fun tasks =>
    match tasks with
    | .list xs => vforIdx 0 xs.toList validate_task
    | _ => vAdd .ERROR "tasks" ("Tasks must be a list, got " ++ pyTypeName tasks)
  else vok

/-- `_validate_state_management`. -/
def validate_state_management (spec : PyVal) : VRes :=
  vtry (pyContains spec "state_management") fun h =>
  if h then
    vtry (pySubscript spec "state_management") fun sm =>
    vtry (pyContains sm "checkpointing") fun hc =>
    if hc then
      vtry (pySubscript sm "checkpointing") fun cp =>
      vtry (pyContains cp "backend") fun hb =>
      if hb then
        vtry (pySubscript cp "backend") fun backend =>
        if pyMemStrs backend ["cosmos", "redis", "memory"] then vok
        else vAddS .WARNING "state_management.checkpointing.backend"
          ("Unknown checkpointing backend '" ++ pyStr backend ++ "'")
          "Supported: cosmos, redis, memory"
      else vok
    else vok
  else vAddS .INFO "state_management" "No state management configured. Using defaults."
    "Consider adding state_management section for checkpointing config"

/-- The `has_enabled_ux` loop of `_validate_ux`. -/
def uxEnabled (ux : PyDict) : Bool :=
  ["teams", "webchat", "api"].any fun t =>
    match ux.lookup t with
    | some (.dict sub) => pyTruthy ((sub.lookup "enabled").getD (.bool false))
    | _ => false

/-- `_validate_ux`. -/
def validate_ux (spec : PyVal) : VRes :=
  vtry (pyContains spec "ux") fun h =>
  if h then
    vtry (pySubscript spec "ux") fun ux =>
    match ux with
    | .dict d =>
      if uxEnabled d then vok
      else vAddS .WARNING "ux"
        "No UX interfaces enabled. Users won't be able to interact with the system."
        "Enable at least one: teams, webchat, or api"
    | _ => vAdd .ERROR "ux" ("UX must be a dict, got " ++ pyTypeName ux)
  else vok

/-- `_validate_deployment`. -/
def validate_deployment (spec : PyVal) : VRes :=
  vtry (pyContains spec "deployment") fun h =>
  if h then
    vtry (pySubscript spec "deployment") fun dep =>
    match dep with
    | .dict d =>
      match d.lookup "environments" with
      | some envs =>
        match envs with
        | .dict .nil => vAdd .WARNING "deployment.environments" "No deployment environments configured"
        | .dict _ => vok
        | _ => vAdd .ERROR "deployment.environments"
            ("Environments must be a dict, got " ++ pyTypeName envs)
      | Option.none => vok
    | _ => vAdd .ERROR "deployment" ("Deployment must be a dict, got " ++ pyTypeName dep)
  else vok

/-- `_validate_authentication`. -/
def validate_authentication (spec : PyVal) : VRes :=
  vtry (pyContains spec "authentication") fun h =>
  if h then
    vtry (pySubscript spec "authentication") fun auth =>
    if isDictV auth then vok
    else vAdd .ERROR "authentication" ("Authentication must be a dict, got " ++ pyTypeName auth)
  else vok

/-- Inner loop of the agent→tool cross-reference check. -/
def crossAgent (defined : List String) (name : String) (cfg : PyVal) : VRes :=
  vtry (pyContains cfg "tools") fun h =>
  if h then
    vtry (pySubscript cfg "tools") fun atools =>
    match atools with
    | .list xs =>
      vfor xs.toList fun t =>
        vtry (setContains defined t) fun mem =>
          if mem then vok
          else vAddS .ERROR ("agents." ++ name ++ ".tools")
            ("Agent references undefined tool '" ++ pyStr t ++ "'")
            "Define tool in tools section or remove reference"
    | _ => vok
  else vok

/-- Inner loop of the task→agent cross-reference check. -/
def crossTask (defined : List String) (idx : Nat) (task : PyVal) : VRes :=
  match task with
  | .dict d =>
    match d.lookup "agent" with
    | some a =>
      vtry (setContains defined a) fun mem =>
        if mem then vok
        else vAddS .ERROR ("tasks[" ++ natRepr idx ++ "].agent")
          ("Task references undefined agent '" ++ pyStr a ++ "'")
          "Define agent in agents section or fix reference"
    | Option.none => vok
  | _ => vok

/-- `_validate_cross_references`. -/
def validate_cross_references (spec : PyVal) : VRes :=
  vseq
    (vtry (pyContains spec "agents") fun ha =>
      if ha then
        vtry (pyContains spec "tools") fun ht =>
        if ht then
          vtry (pySubscript spec "tools") fun tv =>
          vtry (pyKeys tv) fun defined =>
          vtry (pySubscript spec "agents") fun av =>
          vtry (pyItems av) fun ags =>
          vfor ags fun p => crossAgent defined p.1 p.2
        else vok
      else vok)
    (vtry (pyContains spec "tasks") fun ht =>
      if ht then
        vtry (pyContains spec "agents") fun ha =>
        if ha then
          vtry (pySubscript spec "agents") fun av =>
          vtry (pyKeys av) fun defA =>
          vtry (pySubscript spec "tasks") fun tv =>
          vtry (pyIter tv) fun tasks =>
          vforIdx 0 tasks (crossTask defA)
        else vok
      else vok)

/-- `_validate_best_practices`. -/
def validate_best_practices (spec : PyVal) : VRes :=
  vseq
    (vtry (pyContains spec "description") fun h =>
      if h then vok
      else vAdd .INFO "root.description" "Consider adding a description field for documentation")
    (vseq
      (vtry (pyContains spec "agents") fun h =>
        if h then
          vtry (pySubscript spec "agents") fun agents =>
          vtry (pyLen agents) fun cnt =>
          if cnt > 10 then
            vAdd .INFO "agents"
              ("Large number of agents (" ++ natRepr cnt ++ "). Consider grouping related functionality.")
          else vok
        else vok)
      (vtry (pyContains spec "deployment") fun h =>
        if h then
          vtry (pySubscript spec "deployment") fun dep =>
          vtry (pyContains dep "monitoring") fun hm =>
          if hm then vok
          else vAdd .INFO "deployment.monitoring"
            "Consider enabling monitoring (Application Insights, Log Analytics)"
        else vok))

/-- The twelve sub-checks of `validate`, in registration order. -/
def checkList : List (PyVal → VRes) :=
  [validate_required_fields, validate_id, validate_version, validate_agents,
   validate_tools, validate_tasks, validate_state_management, validate_ux,
   validate_deployment, validate_authentication, validate_cross_references,
   validate_best_practices]

/-- Run all sub-checks in registration order. -/
def runChecks (spec : PyVal) : VRes :=
  vfor checkList fun c => c spec

/-- `any(issue.severity == Severity.ERROR for issue in self.issues)`. -/
def hasErrors (issues : List ValidationIssue) : Bool :=
  issues.any fun i => i.severity == Severity.ERROR

/-- The mutable state of a `SpecValidator` instance (`self.spec`,
`self.issues`). -/
structure VState where
  spec : PyVal
  issues : List ValidationIssue

/-- `SpecValidator.validate`: resets the instance state, runs every
sub-check in registration order, and returns `(is_valid, issues)` — or
propagates the exception if a sub-check raised (the instance keeps the
issues appended before the raise). -/
def validate (_st : VState) (spec : PyVal) : VState × Except PyErr (Bool × List ValidationIssue) :=
  match runChecks spec with
  | (is, Option.none) => (⟨spec, is⟩, .ok (!hasErrors is, is))
  | (is, some e) => (⟨spec, is⟩, .error e)

/-- Calling `validate` on a fresh `SpecValidator()` instance. -/
def validateRun (spec : PyVal) : Except PyErr (Bool × List ValidationIssue) :=
  (validate ⟨.none, []⟩ spec).2

end SpecValidator

/-! ## SHA-256 (the hash behind `_hash_file` / `_hash_dict` in src/manifest.py)

Implemented on lists of byte values (`Nat`s below 256), with 32-bit words
as `Nat` reduced mod `2^32`. -/

/-- Truncate to a 32-bit word. -/
def w32 (x : Nat) : Nat := x % 4294967296

/-- 32-bit right rotation. -/
def rotr32 (x n : Nat) : Nat := w32 ((x >>> n) ||| (x <<< (32 - n)))

/-- 32-bit bitwise complement (argument must already be a 32-bit word). -/
def notw (x : Nat) : Nat := 4294967295 - x

/-- Big-endian byte rendering of `v` on `n` bytes. -/
def beBytes (n v : Nat) : List Nat :=
  (List.range n).map fun i => (v >>> (8 * (n - 1 - i))) % 256

/-- SHA-256 message padding. -/
def sha256pad (msg : List Nat) : List Nat :=
  msg ++ 128 :: (List.replicate ((64 - (msg.length + 9) % 64) % 64) 0 ++ beBytes 8 (8 * msg.length))

/-- Split into 64-byte blocks (fuel-based for structural recursion). -/
def chunks64 : Nat → List Nat → List (List Nat)
  | 0, _ => []
  | _ + 1, [] => []
  | fuel + 1, l => l.take 64 :: chunks64 fuel (l.drop 64)

/-- Pack four big-endian bytes into a word. -/
def packWord : List Nat → Nat
  | a :: b :: c :: d :: _ => ((a * 256 + b) * 256 + c) * 256 + d
  | _ => 0

/-- The sixteen words of one block. -/
def blockWords (block : List Nat) : List Nat :=
  (List.range 16).map fun i => packWord (block.drop (4 * i))

/-- One step of the message-schedule extension. -/
def extendStep (w : List Nat) (_i : Nat) : List Nat :=
  let n := w.length
  let x := w.getD (n - 15) 0
  let y := w.getD (n - 2) 0
  let s0 := (rotr32 x 7) ^^^ ((rotr32 x 18) ^^^ (x >>> 3))
  let s1 := (rotr32 y 17) ^^^ ((rotr32 y 19) ^^^ (y >>> 10))
  w ++ [w32 (w.getD (n - 16) 0 + s0 + w.getD (n - 7) 0 + s1)]

/-- Message schedule: 16 words extended to 64. -/
def schedule (ws : List Nat) : List Nat := (List.range 48).foldl extendStep ws

/-- The SHA-256 round constants. -/
def k256 : List Nat :=
  [1116352408, 1899447441, 3049323471, 3921009573, 961987163,
   1508970993, 2453635748, 2870763221, 3624381080, 310598401,
   607225278, 1426881987, 1925078388, 2162078206, 2614888103,
   3248222580, 3835390401, 4022224774, 264347078, 604807628,
   770255983, 1249150122, 1555081692, 1996064986, 2554220882,
   2821834349, 2952996808, 3210313671, 3336571891, 3584528711,
   113926993, 338241895, 666307205, 773529912, 1294757372,
   1396182291, 1695183700, 1986661051, 2177026350, 2456956037,
   2730485921, 2820302411, 3259730800, 3345764771, 3516065817,
   3600352804, 4094571909, 275423344, 430227734, 506948616,
   659060556, 883997877, 958139571, 1322822218, 1537002063,
   1747873779, 1955562222, 2024104815, 2227730452, 2361852424,
   2428436474, 2756734187, 3204031479, 3329325298]

/-- The eight working registers of the compression function. -/
structure H8 where
  a : Nat
  b : Nat
  c : Nat
  d : Nat
  e : Nat
  f : Nat
  g : Nat
  h : Nat

/-- One compression round. -/
def sha256round (st : H8) (kw : Nat × Nat) : H8 :=
  let s1 := (rotr32 st.e 6) ^^^ ((rotr32 st.e 11) ^^^ (rotr32 st.e 25))
  let ch := (st.e &&& st.f) ^^^ ((notw st.e) &&& st.g)
  let t1 := st.h + s1 + ch + kw.1 + kw.2
  let s0 := (rotr32 st.a 2) ^^^ ((rotr32 st.a 13) ^^^ (rotr32 st.a 22))
  let mj := (st.a &&& st.b) ^^^ ((st.a &&& st.c) ^^^ (st.b &&& st.c))
  let t2 := s0 + mj
  ⟨w32 (t1 + t2), st.a, st.b, st.c, w32 (st.d + t1), st.e, st.f, st.g⟩

/-- Compress one 64-byte block into the running hash state. -/
def sha256block (hs : H8) (block : List Nat) : H8 :=
  let ws := schedule (blockWords block)
  let st := (k256.zip ws).foldl sha256round hs
  ⟨w32 (hs.a + st.a), w32 (hs.b + st.b), w32 (hs.c + st.c), w32 (hs.d + st.d),
   w32 (hs.e + st.e), w32 (hs.f + st.f), w32 (hs.g + st.g), w32 (hs.h + st.h)⟩

/-- The SHA-256 initial hash state. -/
def sha256init : H8 :=
  ⟨1779033703, 3144134277, 1013904242, 2773480762,
   1359893119, 2600822924, 528734635, 1541459225⟩

/-- The eight digest words of a byte message. -/
def sha256words (msg : List Nat) : List Nat :=
  let p := sha256pad msg
  let hs := (chunks64 (p.length + 1) p).foldl sha256block sha256init
  [hs.a, hs.b, hs.c, hs.d, hs.e, hs.f, hs.g, hs.h]

/-- Lower-case hex digit characters. -/
def hexDigit (n : Nat) : Char := "0123456789abcdef".data.getD n '0'

/-- `hashlib.sha256(...).hexdigest()` as a 64-character list. -/
def hexDigest (ws : List Nat) : List Char :=
  (List.range 64).map fun i => hexDigit ((ws.getD (i / 8) 0 >>> (4 * (7 - i % 8))) % 16)

/-- `hashlib.sha256(content).hexdigest()[:16]` — the 16-hex-character
fingerprint used throughout the manifest. -/
def fp16 (msg : List Nat) : String := String.mk ((hexDigest (sha256words msg)).take 16)

/-! ## `json.dumps(d, sort_keys=True)` (used by `_hash_dict`)

Default separators (", " and ": "), `ensure_ascii=True` escaping; keys are
sorted at every mapping level during serialization (Python compares
strings by code point). -/

/-- Four-digit hex rendering for `\uXXXX` escapes. -/
def hex4 (n : Nat) : List Char :=
  [hexDigit (n / 4096 % 16), hexDigit (n / 256 % 16), hexDigit (n / 16 % 16), hexDigit (n % 16)]

/-- JSON escaping of one character, `ensure_ascii=True`: printable ASCII
other than quote and backslash is literal, the named control escapes are
used where Python uses them, everything else becomes `\uXXXX` (astral
characters become a surrogate pair). -/
def jsonEscapeChar (c : Char) : List Char :=
  if c = '"' then ['\\', '"']
  else if c = '\\' then ['\\', '\\']
  else if c = '\x08' then ['\\', 'b']
  else if c = '\x09' then ['\\', 't']
  else if c = '\x0a' then ['\\', 'n']
  else if c = '\x0c' then ['\\', 'f']
  else if c = '\x0d' then ['\\', 'r']
  else if c.toNat < 32 then '\\' :: 'u' :: hex4 c.toNat
  else if c.toNat < 127 then [c]
  else if c.toNat < 65536 then '\\' :: 'u' :: hex4 c.toNat
  else
    let v := c.toNat - 65536
    ('\\' :: 'u' :: hex4 (55296 + v / 1024)) ++ ('\\' :: 'u' :: hex4 (56320 + v % 1024))

/-- A JSON string literal. -/
def jsonQuote (s : String) : String :=
  String.mk ('"' :: (s.data.flatMap jsonEscapeChar ++ ['"']))

/-- Insert an entry into a key-sorted association list, keeping it sorted
(stable; Python's sort is stable and dict keys are unique anyway). -/
def insertEntry (k : String) (v : PyVal) : PyDict → PyDict
  | .nil => .cons k v .nil
  | .cons k' v' tl =>
    match strLe k k' with
    | true => .cons k v (.cons k' v' tl)
    | false => .cons k' v' (insertEntry k v tl)

/-- Sort a dict's entries by key (what `sort_keys=True` does at one
mapping level). -/
def sortEntries : PyDict → PyDict
  | .nil => .nil
  | .cons k v tl => insertEntry k v (sortEntries tl)

/-- The JSON rendering of a float is not modelled (see the header note);
this placeholder keeps `dumps` total.  No theorem depends on it. -/
def floatRender (q : Rat) : String := intRepr q.num ++ "/" ++ natRepr q.den

theorem sizeD_insertEntry : ∀ (k : String) (v : PyVal) (d : PyDict),
    sizeD (insertEntry k v d) = sizeV v + sizeD d + 1
  | _, _, .nil => rfl
  | k, v, .cons k' v' tl => by
    cases hle : strLe k k' with
    | true => simp only [insertEntry, hle, sizeD]
    | false =>
      simp only [insertEntry, hle, sizeD, sizeD_insertEntry k v tl]
      omega

theorem sizeD_sortEntries : ∀ d : PyDict, sizeD (sortEntries d) = sizeD d
  | .nil => rfl
  | .cons k v tl => by
    simp only [sortEntries, sizeD_insertEntry, sizeD_sortEntries tl, sizeD]

mutual

def dumps : PyVal → String
  | .none => "null"
  | .bool b => if b then "true" else "false"
  | .int n => intRepr n
  | .float q => floatRender q
  | .str s => jsonQuote s
  | .list xs => "[" ++ dumpsL xs ++ "]"
  | .dict d => "\x7b" ++ dumpsD (sortEntries d) ++ "\x7d"
  termination_by d => sizeV d
  decreasing_by all_goals (simp [sizeV, sizeL, sizeD, sizeD_sortEntries] <;> omega)

def dumpsL : PyList → String
  | .nil => ""
  | .cons x .nil => dumps x
  | .cons x tl => dumps x ++ ", " ++ dumpsL tl
  termination_by xs => sizeL xs
  decreasing_by all_goals (simp [sizeV, sizeL, sizeD] <;> omega)

def dumpsD : PyDict → String
  | .nil => ""
  | .cons k v .nil => jsonQuote k ++ ": " ++ dumps v
  | .cons k v tl => jsonQuote k ++ ": " ++ dumps v ++ ", " ++ dumpsD tl
  termination_by d => sizeD d
  decreasing_by all_goals (simp [sizeV, sizeL, sizeD] <;> omega)

end

/- Recursive key-order canonicalization: sort every mapping level by key.
Two documents are "equal up to mapping key order" exactly when their
canonicalizations coincide. -/
mutual

def canon : PyVal → PyVal
  | .list xs => .list (canonL xs)
  | .dict d => .dict (sortEntries (canonD d))
  | v => v

def canonL : PyList → PyList
  | .nil => .nil
  | .cons x tl => .cons (canon x) (canonL tl)

def canonD : PyDict → PyDict
  | .nil => .nil
  | .cons k v tl => .cons k (canon v) (canonD tl)

end

/-- Equality of documents up to mapping key order. -/
def keyOrderEq (a b : PyVal) : Prop := canon a = canon b

/-! Ordering lemmas: sorting is idempotent and commutes with
value-canonicalization, so `dumps` (which sorts while serializing) is
invariant under `canon`. -/

/-- Sortedness of a dict's keys (adjacent pairs, which suffices since the
order is transitive). -/
inductive SortedKeys : PyDict → Prop where
  | nil : SortedKeys .nil
  | single (k : String) (v : PyVal) : SortedKeys (.cons k v .nil)
  | cons (k : String) (v : PyVal) (k' : String) (v' : PyVal) (tl : PyDict) :
      strLe k k' = true → SortedKeys (.cons k' v' tl) → SortedKeys (.cons k v (.cons k' v' tl))

/-- `k` is at most the head key (vacuously true of the empty dict). -/
def headKeyLe (k : String) : PyDict → Prop
  | .nil => True
  | .cons k' _ _ => strLe k k' = true

theorem sortedKeys_tail {k : String} {v : PyVal} {tl : PyDict}
    (h : SortedKeys (.cons k v tl)) : SortedKeys tl := by
  cases h with
  | single => exact .nil
  | cons _ _ _ _ _ _ h2 => exact h2

theorem sortedKeys_cons {k : String} (v : PyVal) {tl : PyDict}
    (h1 : headKeyLe k tl) (h2 : SortedKeys tl) : SortedKeys (.cons k v tl) := by
  cases tl with
  | nil => exact .single k v
  | cons k' v' tl' => exact .cons k v k' v' tl' h1 h2

theorem sortedKeys_head {k : String} {v : PyVal} {tl : PyDict}
    (h : SortedKeys (.cons k v tl)) : headKeyLe k tl := by
  cases h with
  | single => exact trivial
  | cons _ _ _ _ _ h1 _ => exact h1

theorem headKeyLe_insertEntry {k' k : String} {v : PyVal} {tl : PyDict}
    (h1 : strLe k' k = true) (h2 : headKeyLe k' tl) :
    headKeyLe k' (insertEntry k v tl) := by
  cases tl with
  | nil => exact h1
  | cons k'' v'' tl'' =>
    cases h : strLe k k'' with
    | true =>
      simp only [insertEntry, h]
      exact h1
    | false =>
      simp only [insertEntry, h]
      exact h2

theorem insertEntry_sorted : ∀ (k : String) (v : PyVal) (d : PyDict),
    SortedKeys d → SortedKeys (insertEntry k v d)
  | k, v, .nil, _ => .single k v
  | k, v, .cons k' v' tl, h => by
    cases hle : strLe k k' with
    | true =>
      simp only [insertEntry, hle]
      exact .cons k v k' v' tl hle h
    | false =>
      simp only [insertEntry, hle]
      refine sortedKeys_cons v' ?_ (insertEntry_sorted k v tl (sortedKeys_tail h))
      exact headKeyLe_insertEntry (strLe_total _ _ hle) (sortedKeys_head h)

theorem sortEntries_sorted : ∀ d : PyDict, SortedKeys (sortEntries d)
  | .nil => .nil
  | .cons k v tl => insertEntry_sorted k v (sortEntries tl) (sortEntries_sorted tl)

theorem sortEntries_of_sorted : ∀ {d : PyDict}, SortedKeys d → sortEntries d = d
  | .nil, _ => rfl
  | .cons k v tl, h => by
    have htl := sortedKeys_tail h
    simp only [sortEntries, sortEntries_of_sorted htl]
    cases tl with
    | nil => rfl
    | cons k' v' tl' =>
      have hh : strLe k k' = true := sortedKeys_head h
      simp only [insertEntry, hh]

theorem sortEntries_idem (d : PyDict) : sortEntries (sortEntries d) = sortEntries d :=
  sortEntries_of_sorted (sortEntries_sorted d)

theorem canonD_insertEntry : ∀ (k : String) (v : PyVal) (d : PyDict),
    canonD (insertEntry k v d) = insertEntry k (canon v) (canonD d)
  | _, _, .nil => rfl
  | k, v, .cons k' v' tl => by
    cases hle : strLe k k' with
    | true => simp only [insertEntry, hle, canonD]
    | false => simp only [insertEntry, hle, canonD, canonD_insertEntry k v tl]

theorem sortEntries_canonD : ∀ d : PyDict, sortEntries (canonD d) = canonD (sortEntries d)
  | .nil => rfl
  | .cons k v tl => by
    simp only [canonD, sortEntries, sortEntries_canonD tl, canonD_insertEntry]

theorem mem_values_insertEntry : ∀ {w : PyVal} {k : String} {v : PyVal} {d : PyDict},
    w ∈ PyDict.values (insertEntry k v d) → w = v ∨ w ∈ PyDict.values d
  | w, k, v, .nil, h => by simpa [insertEntry, PyDict.values] using h
  | w, k, v, .cons k' v' tl, h => by
    cases hle : strLe k k' with
    | true =>
      rw [show insertEntry k v (.cons k' v' tl) = .cons k v (.cons k' v' tl) by
        simp only [insertEntry, hle]] at h
      simpa [PyDict.values] using h
    | false =>
      rw [show insertEntry k v (.cons k' v' tl) = .cons k' v' (insertEntry k v tl) by
        simp only [insertEntry, hle]] at h
      simp only [PyDict.values, List.mem_cons] at h
      rcases h with h | h
      · right
        simp [PyDict.values, h]
      · rcases mem_values_insertEntry h with h' | h'
        · exact Or.inl h'
        · right
          simp [PyDict.values, h']

theorem mem_values_sortEntries : ∀ {w : PyVal} {d : PyDict},
    w ∈ PyDict.values (sortEntries d) → w ∈ PyDict.values d
  | w, .nil, h => by simpa [sortEntries] using h
  | w, .cons k v tl, h => by
    simp only [sortEntries] at h
    rcases mem_values_insertEntry h with h' | h'
    · simp [PyDict.values, h']
    · simp [PyDict.values, mem_values_sortEntries h']

theorem dumpsD_canonD : ∀ d : PyDict,
    (∀ v ∈ PyDict.values d, dumps (canon v) = dumps v) →
    dumpsD (canonD d) = dumpsD d
  | .nil, _ => rfl
  | .cons k v .nil, h => by
    simp only [canonD, dumpsD]
    rw [h v (by simp [PyDict.values])]
  | .cons k v (.cons k' v' tl), h => by
    have ih := dumpsD_canonD (.cons k' v' tl)
      (fun w hw => h w (by simp only [PyDict.values, List.mem_cons] at hw ⊢; tauto))
    simp only [canonD, dumpsD] at ih ⊢
    rw [h v (by simp [PyDict.values]), ih]

mutual

theorem dumps_canon : ∀ d : PyVal, dumps (canon d) = dumps d
  | .none => rfl
  | .bool _ => rfl
  | .int _ => rfl
  | .float _ => rfl
  | .str _ => rfl
  | .list xs => by simp only [canon, dumps, dumps_canon_list xs]
  | .dict d => by
    simp only [canon, dumps, sortEntries_idem, sortEntries_canonD]
    rw [dumpsD_canonD (sortEntries d)
      (fun v hv => dumps_canon_values d v (mem_values_sortEntries hv))]

theorem dumps_canon_list : ∀ xs : PyList, dumpsL (canonL xs) = dumpsL xs
  | .nil => rfl
  | .cons x .nil => by simp only [canonL, dumpsL, dumps_canon x]
  | .cons x (.cons y tl) => by
    have h2 := dumps_canon_list (PyList.cons y tl)
    simp only [canonL] at h2 ⊢
    simp only [dumpsL, dumps_canon x, h2]

theorem dumps_canon_values : ∀ dd : PyDict, ∀ v ∈ PyDict.values dd, dumps (canon v) = dumps v
  | .cons _ w tl, v, hv => by
    simp only [PyDict.values, List.mem_cons] at hv
    rcases hv with h | h
    · rw [h]
      exact dumps_canon w
    · exact dumps_canon_values tl v h

end

/-- ASCII bytes of a string (the output of `dumps` is pure ASCII because
`ensure_ascii=True` escapes everything above 0x7e, so UTF-8 encoding is
the identity on code points here). -/
def asciiBytes (s : String) : List Nat := s.data.map Char.toNat

/-! ## Generation manifest (src/manifest.py)

The file system is an association list from absolute paths (component
lists) to byte contents; a `PyPath` mirrors `pathlib.Path` as far as the
manifest uses it (absolute or relative, component list). -/

/-- Byte content of a file. -/
abbrev Bytes := List Nat

/-- A snapshot of the file system: absolute path ↦ content. -/
abbrev FS := List (List String × Bytes)

/-- Content of a file, if it exists. -/
def lookupFS : FS → List String → Option Bytes
  | [], _ => Option.none
  | (q, c) :: rest, p => if q = p then some c else lookupFS rest p

/-- Overwrite (or create) a file. -/
def setFS : FS → List String → Bytes → FS
  | [], p, c => [(p, c)]
  | (q, d) :: rest, p, c => if q = p then (p, c) :: rest else (q, d) :: setFS rest p c

/-- Delete a file. -/
def delFS : FS → List String → FS
  | [], _ => []
  | (q, d) :: rest, p => if q = p then delFS rest p else (q, d) :: delFS rest p

/-- A `pathlib.Path`: absolute or relative, as a list of components. -/
inductive PyPath where
  | abs (parts : List String) : PyPath
  | rel (parts : List String) : PyPath

/-- `out` is a leading directory of `parts`. -/
def dirLeads : List String → List String → Bool
  | [], _ => true
  | _ :: _, [] => false
  | a :: as, b :: bs => a = b && dirLeads as bs

/-- Resolve a path against the current working directory (what `.exists()`
does for relative paths). -/
def absolutize (cwd : List String) : PyPath → List String
  | .abs l => l
  | .rel l => cwd ++ l

/-- `file_path.exists()`. -/
def pathExists (fs : FS) (cwd : List String) (p : PyPath) : Bool :=
  (lookupFS fs (absolutize cwd p)).isSome

/-- `file_path.relative_to(out_dir)` for an absolute `out_dir`: succeeds
exactly when `out_dir` is a leading directory; a relative `file_path`
cannot be relativized against an absolute directory (`ValueError`). -/
def relTo (out : List String) : PyPath → Except PyErr (List String)
  | .abs parts =>
    if dirLeads out parts then .ok (parts.drop out.length) else .error .valueError
  | .rel _ => .error .valueError

/-- One tracked file's record in the manifest. -/
structure FileRecord where
  hash : String
  generatedAt : String
  size : Nat
deriving DecidableEq

/-- The `spec` summary block of the manifest. -/
structure SpecSummary where
  hash : String
  version : PyVal
  schemaVersion : PyVal
  agents : List String
  tools : List String

/-- The persisted manifest state plus the instance's `out_dir`.  A missing
or empty `spec` block is `Option.none` (Python's `if not old_spec`). -/
structure GenerationManifest where
  outDir : List String
  version : String
  generatedAt : Option String
  specSummary : Option SpecSummary
  files : List (List String × FileRecord)

/-- The report returned by `detect_spec_changes`.  The four name lists are
Python sets materialized in unspecified order; theorems about them are
stated at the set level. -/
structure SpecChangeReport where
  added_agents : List String
  removed_agents : List String
  added_tools : List String
  removed_tools : List String
  schema_version_changed : Bool
  is_first_generation : Bool
deriving DecidableEq

namespace GenerationManifest

/-- `_hash_file`: SHA-256 of the content, truncated to 16 hex characters. -/
def hash_file (content : Bytes) : String := fp16 content

/-- `_hash_dict`: SHA-256 of `json.dumps(d, sort_keys=True)`, truncated to
16 hex characters.  This is `fingerprint_document`. -/
def hash_dict (d : PyVal) : String := fp16 (asciiBytes (dumps d))

/-- `_empty_manifest` (with the instance's `out_dir`). -/
def emptyManifest (out : List String) : GenerationManifest :=
  ⟨out, "1.0", Option.none, Option.none, []⟩

/-- `__init__` + `_load`: a missing or unparsable persisted manifest is
replaced by the empty one (never an error).  Parsing the persisted JSON is
modelled as identity (header note). -/
def load (out : List String) (persisted : Option GenerationManifest) : GenerationManifest :=
  match persisted with
  | some m => ⟨out, m.version, m.generatedAt, m.specSummary, m.files⟩
  | Option.none => emptyManifest out

/-- Record lookup among tracked files. -/
def lookupRec : List (List String × FileRecord) → List String → Option FileRecord
  | [], _ => Option.none
  | (q, r) :: rest, p => if q = p then some r else lookupRec rest p

/-- `list(spec.get(key, {}).keys())`. -/
def pyGetKeys (spec : PyVal) (key : String) : Except PyErr (List String) :=
  match pyGet spec key (.dict .nil) with
  | .error e => .error e
  | .ok v => pyKeys v

/-- The file loop of `save`: skip files that do not exist, record
fingerprint/timestamp/size for the rest, keyed by the out_dir-relative
path (raising `ValueError` for a path not under `out_dir`, as
`relative_to` does). -/
def saveFileRecs (fs : FS) (cwd out : List String) (now : String) :
    List PyPath → Except PyErr (List (List String × FileRecord))
  | [] => .ok []
  | p :: rest =>
    if pathExists fs cwd p then
      match relTo out p with
      | .error e => .error e
      | .ok r =>
        match saveFileRecs fs cwd out now rest with
        | .error e => .error e
        | .ok others =>
          let content := (lookupFS fs (absolutize cwd p)).getD []
          .ok ((r, ⟨hash_file content, now, content.length⟩) :: others)
    else saveFileRecs fs cwd out now rest

/-- `save`: builds a brand-new manifest (spec summary + records of the
produced files that exist on disk) and replaces the previous one
entirely.  The write of `.goalgen/manifest.json` itself is metadata
persistence, modelled as returning the new manifest value. -/
def save (fs : FS) (cwd : List String) (m : GenerationManifest) (spec : PyVal)
    (generated_files : List PyPath) (now : String) : Except PyErr GenerationManifest :=
  match pyGet spec "version" (.str "1.0.0") with
  | .error e => .error e
  | .ok version =>
    match pyGet spec "schema_version" (.int 1) with
    | .error e => .error e
    | .ok schemaV =>
      match pyGetKeys spec "agents" with
      | .error e => .error e
      | .ok agents =>
        match pyGetKeys spec "tools" with
        | .error e => .error e
        | .ok tools =>
          match saveFileRecs fs cwd m.outDir now generated_files with
          | .error e => .error e
          | .ok recs =>
            .ok ⟨m.outDir, "1.0", some now,
                 some ⟨hash_dict spec, version, schemaV, agents, tools⟩, recs⟩

/-- The path-relativization step at the top of `is_modified`: an absolute
path is relativized against `out_dir` (`None` modelling the caught
`ValueError` when it is not under `out_dir`), a relative path is used as
the key directly. -/
def relOf (out : List String) : PyPath → Option (List String)
  | .abs parts =>
    if dirLeads out parts then some (parts.drop out.length) else Option.none
  | .rel parts => some parts

/-- `is_modified`: relativize the path (absolute paths outside `out_dir`
yield `False`), then: untracked → `False`; tracked but deleted → `True`;
tracked and present → fingerprints differ. -/
def is_modified (fs : FS) (m : GenerationManifest) (p : PyPath) : Bool :=
  match relOf m.outDir p with
  | Option.none => false
  | some r =>
    match lookupRec m.files r with
    | Option.none => false
    | some rec =>
      match lookupFS fs (m.outDir ++ r) with
      | Option.none => true
      | some content => hash_file content != rec.hash

/-- `get_tracked_files` (as a list of relative paths). -/
def get_tracked_files (m : GenerationManifest) : List (List String) := m.files.map (·.1)

/-- `detect_spec_changes`. -/
def detect_spec_changes (m : GenerationManifest) (new_spec : PyVal) :
    Except PyErr SpecChangeReport :=
  match m.specSummary with
  | Option.none =>
    match pyGetKeys new_spec "agents" with
    | .error e => .error e
    | .ok newAgents =>
      match pyGetKeys new_spec "tools" with
      | .error e => .error e
      | .ok newTools => .ok ⟨newAgents, [], newTools, [], false, true⟩
  | some old =>
    match pyGetKeys new_spec "agents" with
    | .error e => .error e
    | .ok newAgents =>
      match pyGetKeys new_spec "tools" with
      | .error e => .error e
      | .ok newTools =>
        match pyGet new_spec "schema_version" (.int 1) with
        | .error e => .error e
        | .ok newSchema =>
          .ok ⟨newAgents.filter (fun a => decide (a ∉ old.agents)),
               old.agents.filter (fun a => decide (a ∉ newAgents)),
               newTools.filter (fun t => decide (t ∉ old.tools)),
               old.tools.filter (fun t => decide (t ∉ newTools)),
               !pyEq old.schemaVersion newSchema, false⟩

end GenerationManifest

/-- `should_regenerate_file` (src/manifest.py, module level). -/
def should_regenerate_file (fs : FS) (cwd : List String) (file_path : PyPath)
    (manifest : GenerationManifest) (incremental force : Bool) : Bool × String :=
  if force then (true, "forced regeneration")
  else if !pathExists fs cwd file_path then (true, "file does not exist")
  else if !incremental then (true, "full regeneration (not incremental)")
  else if manifest.is_modified fs file_path then
    (false, "file was modified by user (skipping to preserve changes)")
  else (false, "file unchanged (skipping)")

/-! ## Helper lemmas about the sub-check combinators -/

theorem vseq_snd_none {a b : VRes} (h : (vseq a b).2 = Option.none) :
    a.2 = Option.none ∧ b.2 = Option.none := by
  obtain ⟨ia, ea⟩ := a
  cases ea <;> simp_all [vseq]

theorem vseq_fst_of_none {a b : VRes} (ha : a.2 = Option.none) :
    (vseq a b).1 = a.1 ++ b.1 := by
  obtain ⟨ia, ea⟩ := a
  cases ea <;> simp_all [vseq]

theorem vfor_issues_join {α : Type} : ∀ (cs : List α) (f : α → VRes),
    (vfor cs f).2 = Option.none →
    (vfor cs f).1 = (cs.map (fun c => (f c).1)).join
  | [], _, _ => rfl
  | c :: cs, f, h => by
    have hs := @vseq_snd_none (f c) (vfor cs f) (by simpa [vfor] using h)
    simp only [vfor, List.map_cons, List.join_cons]
    rw [vseq_fst_of_none hs.1, vfor_issues_join cs f hs.2]

theorem vfor_errs {α : Type} : ∀ {l : List α} {f : α → VRes},
    (vfor l f).2 = Option.none → ∀ x ∈ l, (f x).2 = Option.none
  | [], _, _, x, hx => absurd hx (List.not_mem_nil x)
  | c :: cs, f, h, x, hx => by
    have hs := @vseq_snd_none (f c) (vfor cs f) (by simpa [vfor] using h)
    rcases List.mem_cons.mp hx with rfl | hx'
    · exact hs.1
    · exact vfor_errs hs.2 x hx'

theorem mem_vfor {α : Type} : ∀ {l : List α} {f : α → VRes},
    (vfor l f).2 = Option.none → ∀ {x : α}, x ∈ l →
    ∀ {i : ValidationIssue}, i ∈ (f x).1 → i ∈ (vfor l f).1
  | [], _, _, x, hx, _, _ => absurd hx (List.not_mem_nil x)
  | c :: cs, f, h, x, hx, i, hi => by
    have hs := @vseq_snd_none (f c) (vfor cs f) (by simpa [vfor] using h)
    simp only [vfor]
    rw [vseq_fst_of_none hs.1]
    rcases List.mem_cons.mp hx with rfl | hx'
    · exact List.mem_append_left _ hi
    · exact List.mem_append_right _ (mem_vfor hs.2 hx' hi)

theorem hasErrors_of_mem {issues : List ValidationIssue} {i : ValidationIssue}
    (hm : i ∈ issues) (he : i.severity = Severity.ERROR) :
    SpecValidator.hasErrors issues = true := by
  simp only [SpecValidator.hasErrors, List.any_eq_true]
  exact ⟨i, hm, by simp [he]⟩

/-! ## Helper lemmas about paths and the file-system model -/

theorem dirLeads_recover : ∀ (out parts : List String), dirLeads out parts = true →
    out ++ parts.drop out.length = parts
  | [], parts, _ => by simp
  | _ :: _, [], h => by simp [dirLeads] at h
  | a :: as, b :: bs, h => by
    simp only [dirLeads, Bool.and_eq_true, decide_eq_true_eq] at h
    simp only [List.length_cons, List.drop_succ_cons, List.cons_append, h.1,
      dirLeads_recover as bs h.2]

theorem dirLeads_append : ∀ (out r : List String), dirLeads out (out ++ r) = true
  | [], _ => rfl
  | a :: as, r => by simp [dirLeads, dirLeads_append as r]

theorem relTo_ok_abs {out : List String} {p : PyPath} {r : List String}
    (h : relTo out p = .ok r) (cwd : List String) : absolutize cwd p = out ++ r := by
  cases p with
  | rel parts => simp [relTo] at h
  | abs parts =>
    simp only [relTo] at h
    by_cases hd : dirLeads out parts = true
    · rw [if_pos hd] at h
      simp only [Except.ok.injEq] at h
      subst h
      simp [absolutize, dirLeads_recover out parts hd]
    · rw [if_neg hd] at h
      simp at h

theorem lookupFS_delFS_self : ∀ (fs : FS) (a : List String),
    lookupFS (delFS fs a) a = Option.none
  | [], _ => rfl
  | (q, c) :: rest, a => by
    by_cases h : q = a
    · simp [delFS, h, lookupFS_delFS_self rest a]
    · simp [delFS, h, lookupFS, lookupFS_delFS_self rest a]

theorem lookupFS_setFS_self : ∀ (fs : FS) (a : List String) (c : Bytes),
    lookupFS (setFS fs a c) a = some c
  | [], _, _ => by simp [setFS, lookupFS]
  | (q, d) :: rest, a, c => by
    by_cases h : q = a
    · simp [setFS, h, lookupFS]
    · simp [setFS, h, lookupFS, lookupFS_setFS_self rest a c]

/-! ## Helper lemmas about the hex rendering -/

theorem getD_mem_or {α : Type} : ∀ (l : List α) (n : Nat) (d : α),
    l.getD n d ∈ l ∨ l.getD n d = d
  | [], n, d => Or.inr (by simp)
  | x :: xs, 0, d => Or.inl (by simp)
  | x :: xs, n + 1, d => by
    rcases getD_mem_or xs n d with h | h
    · left
      simp only [List.getD, List.getElem?_cons_succ] at h ⊢
      exact List.mem_cons_of_mem x h
    · right
      simp only [List.getD, List.getElem?_cons_succ] at h ⊢
      exact h

theorem hexDigit_mem (n : Nat) : hexDigit n ∈ "0123456789abcdef".data := by
  rcases getD_mem_or "0123456789abcdef".data n '0' with h | h
  · exact h
  · rw [hexDigit, h]
    decide

theorem fp16_length (msg : Bytes) : (fp16 msg).length = 16 := by
  simp [fp16, String.length, hexDigest]

theorem fp16_hex {msg : Bytes} {c : Char} (h : c ∈ (fp16 msg).data) :
    c ∈ "0123456789abcdef".data := by
  simp only [fp16, String.mk] at h
  have h' := List.mem_of_mem_take h
  simp only [hexDigest, List.mem_map] at h'
  obtain ⟨i, _, hi⟩ := h'
  rw [← hi]
  exact hexDigit_mem _

/-! ## Helper lemmas about `save`'s file loop -/

namespace GenerationManifest

/-- The record `save` stores for a produced file `p` that exists. -/
def recFor (fs : FS) (cwd : List String) (now : String) (p : PyPath) : FileRecord :=
  ⟨hash_file ((lookupFS fs (absolutize cwd p)).getD []), now,
   ((lookupFS fs (absolutize cwd p)).getD []).length⟩

theorem saveFileRecs_lookup :
    ∀ {files : List PyPath} {recs : List (List String × FileRecord)}
      {fs : FS} {cwd out : List String} {now : String},
    saveFileRecs fs cwd out now files = .ok recs →
    ∀ {p : PyPath}, p ∈ files → pathExists fs cwd p = true →
    ∀ {r : List String}, relTo out p = .ok r →
    lookupRec recs r = some (recFor fs cwd now p)
  | [], _, _, _, _, _, _, _, hp, _, _, _ => absurd hp (List.not_mem_nil _)
  | q :: rest, recs, fs, cwd, out, now, h, p, hp, hex, r, hrel => by
    simp only [saveFileRecs] at h
    by_cases hq : pathExists fs cwd q = true
    · rw [if_pos hq] at h
      cases hrq : relTo out q with
      | error e => rw [hrq] at h; cases h
      | ok rq =>
        rw [hrq] at h
        cases hrest : saveFileRecs fs cwd out now rest with
        | error e => rw [hrest] at h; cases h
        | ok others =>
          rw [hrest] at h
          simp only [Except.ok.injEq] at h
          subst h
          rcases List.mem_cons.mp hp with rfl | hp'
          · have : rq = r := by
              rw [hrq] at hrel
              simpa using hrel
            subst this
            simp [lookupRec, recFor]
          · simp only [lookupRec]
            by_cases hrr : rq = r
            · subst hrr
              have habs : absolutize cwd q = absolutize cwd p := by
                rw [relTo_ok_abs hrq cwd, relTo_ok_abs hrel cwd]
              rw [if_pos rfl]
              simp [recFor, habs]
            · rw [if_neg hrr]
              exact saveFileRecs_lookup hrest hp' hex hrel
    · rw [if_neg hq] at h
      rcases List.mem_cons.mp hp with rfl | hp'
      · rw [hex] at hq
        exact absurd rfl hq
      · exact saveFileRecs_lookup h hp' hex hrel

theorem saveFileRecs_sound :
    ∀ {files : List PyPath} {recs : List (List String × FileRecord)}
      {fs : FS} {cwd out : List String} {now : String},
    saveFileRecs fs cwd out now files = .ok recs →
    ∀ {r : List String} {rec : FileRecord}, lookupRec recs r = some rec →
    ∃ c, lookupFS fs (out ++ r) = some c ∧ rec = ⟨hash_file c, now, c.length⟩
  | [], recs, _, _, _, _, h, r, rec, hl => by
    simp only [saveFileRecs, Except.ok.injEq] at h
    subst h
    simp [lookupRec] at hl
  | q :: rest, recs, fs, cwd, out, now, h, r, rec, hl => by
    simp only [saveFileRecs] at h
    by_cases hq : pathExists fs cwd q = true
    · rw [if_pos hq] at h
      cases hrq : relTo out q with
      | error e => rw [hrq] at h; cases h
      | ok rq =>
        rw [hrq] at h
        cases hrest : saveFileRecs fs cwd out now rest with
        | error e => rw [hrest] at h; cases h
        | ok others =>
          rw [hrest] at h
          simp only [Except.ok.injEq] at h
          subst h
          simp only [lookupRec] at hl
          by_cases hrr : rq = r
          · subst hrr
            rw [if_pos rfl] at hl
            simp only [Option.some.injEq] at hl
            subst hl
            have habs : absolutize cwd q = out ++ rq := relTo_ok_abs hrq cwd
            have hq' : (lookupFS fs (out ++ rq)).isSome = true := by
              simpa [pathExists, habs] using hq
            cases hc : lookupFS fs (out ++ rq) with
            | none =>
              rw [hc] at hq'
              simp at hq'
            | some c =>
              refine ⟨c, rfl, ?_⟩
              simp [habs, hc]
          · rw [if_neg hrr] at hl
            exact saveFileRecs_sound hrest hl
    · rw [if_neg hq] at h
      exact saveFileRecs_sound h hl

theorem saveFileRecs_tracked :
    ∀ {files : List PyPath} {recs : List (List String × FileRecord)}
      {fs : FS} {cwd out : List String} {now : String},
    saveFileRecs fs cwd out now files = .ok recs →
    ∀ r : List String, (lookupRec recs r).isSome = true ↔
      ∃ p ∈ files, pathExists fs cwd p = true ∧ relTo out p = .ok r
  | [], recs, _, _, _, _, h, r => by
    simp only [saveFileRecs, Except.ok.injEq] at h
    subst h
    simp [lookupRec]
  | q :: rest, recs, fs, cwd, out, now, h, r => by
    simp only [saveFileRecs] at h
    by_cases hq : pathExists fs cwd q = true
    · rw [if_pos hq] at h
      cases hrq : relTo out q with
      | error e => rw [hrq] at h; cases h
      | ok rq =>
        rw [hrq] at h
        cases hrest : saveFileRecs fs cwd out now rest with
        | error e => rw [hrest] at h; cases h
        | ok others =>
          rw [hrest] at h
          simp only [Except.ok.injEq] at h
          subst h
          simp only [lookupRec]
          by_cases hrr : rq = r
          · subst hrr
            rw [if_pos rfl]
            constructor
            · intro _
              exact ⟨q, List.mem_cons_self q rest, hq, hrq⟩
            · intro _
              rfl
          · rw [if_neg hrr]
            rw [saveFileRecs_tracked hrest r]
            constructor
            · rintro ⟨p, hp, hex, hrel⟩
              exact ⟨p, List.mem_cons_of_mem q hp, hex, hrel⟩
            · rintro ⟨p, hp, hex, hrel⟩
              rcases List.mem_cons.mp hp with rfl | hp'
              · rw [hrq] at hrel
                simp only [Except.ok.injEq] at hrel
                exact absurd hrel hrr
              · exact ⟨p, hp', hex, hrel⟩
    · rw [if_neg hq] at h
      rw [saveFileRecs_tracked h r]
      constructor
      · rintro ⟨p, hp, hex, hrel⟩
        exact ⟨p, List.mem_cons_of_mem q hp, hex, hrel⟩
      · rintro ⟨p, hp, hex, hrel⟩
        rcases List.mem_cons.mp hp with rfl | hp'
        · rw [hex] at hq
          exact absurd rfl hq
        · exact ⟨p, hp', hex, hrel⟩

end GenerationManifest

/-! ## Concrete spec documents used by the claims -/

/-- `{"id": "trip", "title": "Trip Planner", "version": "1.0.0",
"agents": {"sup": {"kind": "supervisor"}}}` -/
def tripSpec : PyVal :=
  .dict (.cons "id" (.str "trip") (.cons "title" (.str "Trip Planner")
    (.cons "version" (.str "1.0.0")
      (.cons "agents" (.dict (.cons "sup" (.dict (.cons "kind" (.str "supervisor") .nil)) .nil))
        .nil))))

/-- A well-formed spec whose `agents` mapping has a non-mapping value:
`{"id": "x", "title": "T", "version": "1.0.0", "agents": {"bad": 1}}` -/
def c1AgentsNotMapping : PyVal :=
  .dict (.cons "id" (.str "x") (.cons "title" (.str "T")
    (.cons "version" (.str "1.0.0")
      (.cons "agents" (.dict (.cons "bad" (.int 1) .nil)) .nil))))

/-- A well-formed spec with a non-mapping `state_management` value:
`{..., "agents": {"sup": {"kind": "supervisor"}}, "state_management": 5}` -/
def c1StateMgmtNotMapping : PyVal :=
  .dict (.cons "id" (.str "x") (.cons "title" (.str "T")
    (.cons "version" (.str "1.0.0")
      (.cons "agents" (.dict (.cons "sup" (.dict (.cons "kind" (.str "supervisor") .nil)) .nil))
        (.cons "state_management" (.int 5) .nil)))))

/-- `{..., "agents": {"sup": supervisor, "worker": {"kind": "llm_agent",
"tools": ["ghost"]}}}` with no top-level `tools` key. -/
def c2NoToolsSpec : PyVal :=
  .dict (.cons "id" (.str "x") (.cons "title" (.str "T")
    (.cons "version" (.str "1.0.0")
      (.cons "agents" (.dict
        (.cons "sup" (.dict (.cons "kind" (.str "supervisor") .nil))
          (.cons "worker" (.dict (.cons "kind" (.str "llm_agent")
            (.cons "tools" (.list (.cons (.str "ghost") .nil)) .nil))) .nil)))
        .nil))))

/-- The spec of the claimed scenario: only agent is a `llm_agent` with an
undefined tool reference, no supervisor, and no top-level `tools` key. -/
def c2ScenarioSpec : PyVal :=
  .dict (.cons "id" (.str "x") (.cons "title" (.str "T")
    (.cons "version" (.str "1.0.0")
      (.cons "agents" (.dict
        (.cons "worker" (.dict (.cons "kind" (.str "llm_agent")
          (.cons "tools" (.list (.cons (.str "ghost") .nil)) .nil))) .nil))
        .nil))))

/-- The worker agent's config: `{"kind": "llm_agent", "tools": ["ghost"]}`. -/
def c2WorkerCfg : PyDict :=
  .cons "kind" (.str "llm_agent") (.cons "tools" (.list (.cons (.str "ghost") .nil)) .nil)

/-- The agents mapping `{"worker": c2WorkerCfg}`. -/
def c2AgsDict : PyDict := .cons "worker" (.dict c2WorkerCfg) .nil

/-- The scenario spec with an empty top-level `tools` mapping added, as a
dict of entries. -/
def c2SdTools : PyDict :=
  .cons "id" (.str "x") (.cons "title" (.str "T") (.cons "version" (.str "1.0.0")
    (.cons "agents" (.dict c2AgsDict) (.cons "tools" (.dict .nil) .nil))))

/-- The same scenario with an empty top-level `tools` mapping added. -/
def c2ScenarioToolsSpec : PyVal := .dict c2SdTools

/-- `is_valid` of a validation outcome, when it returned normally. -/
def isValidOf (r : Except PyErr (Bool × List ValidationIssue)) : Option Bool :=
  match r with
  | .ok (v, _) => some v
  | .error _ => Option.none

/-- The diagnostic list of a validation outcome, when it returned normally. -/
def issuesOf (r : Except PyErr (Bool × List ValidationIssue)) : Option (List ValidationIssue) :=
  match r with
  | .ok (_, is) => some is
  | .error _ => Option.none

/-- The ERROR-severity diagnostics of a list. -/
def errorsOf (issues : List ValidationIssue) : List ValidationIssue :=
  issues.filter (fun i => i.severity == Severity.ERROR)

/-! ## The claims -/

/-- C1: the specification states that `validate` returns normally with a
diagnostic list for every structurally malformed spec (wrong type at any
key, e.g. a non-mapping agent config or a non-mapping `state_management`
value) and never raises, reporting the type mismatch as an ERROR
diagnostic.  The code violates this in exactly the named places: a
non-mapping agent value makes `_validate_agents` raise `AttributeError`
(at `agent.get("kind")`), and a non-container `state_management` value
makes `_validate_state_management` raise `TypeError` (at
`"checkpointing" in state_mgmt`).  This theorem evaluates the embedded
code at the two failing inputs. -/
theorem C1_validate_raises_on_malformed :
    SpecValidator.validateRun c1AgentsNotMapping = .error .attributeError ∧
    SpecValidator.validateRun c1StateMgmtNotMapping = .error .typeError :=
  ⟨rfl, rfl⟩

/-- C9 counterexample: on the trip-planner spec `validate` returns neither
`(true, [])` nor `(true, [single INFO])` — the diagnostic list has three
entries. -/
theorem C9_counterexample :
    ¬ (SpecValidator.validateRun tripSpec = .ok (true, []) ∨
       ∃ info : ValidationIssue, SpecValidator.validateRun tripSpec = .ok (true, [info])) := by
  have h3 : SpecValidator.validateRun tripSpec = .ok (true,
      [⟨.INFO, "agents.sup.policy", "Supervisor should specify routing policy",
        some "Recommended: 'policy': 'simple_router'"⟩,
       ⟨.INFO, "state_management", "No state management configured. Using defaults.",
        some "Consider adding state_management section for checkpointing config"⟩,
       ⟨.INFO, "root.description", "Consider adding a description field for documentation",
        Option.none⟩]) := rfl
  rintro (h | ⟨info, h⟩) <;> rw [h3] at h <;> simp at h

/-- C9 (amended): on the trip-planner spec `validate` returns
`is_valid = true` with exactly three diagnostics, all INFO (missing
supervisor policy, missing state_management, missing description) — in
particular zero ERROR and zero WARNING diagnostics. -/
theorem C9_amended_trip_spec_valid :
    SpecValidator.validateRun tripSpec = .ok (true,
      [⟨.INFO, "agents.sup.policy", "Supervisor should specify routing policy",
        some "Recommended: 'policy': 'simple_router'"⟩,
       ⟨.INFO, "state_management", "No state management configured. Using defaults.",
        some "Consider adding state_management section for checkpointing config"⟩,
       ⟨.INFO, "root.description", "Consider adding a description field for documentation",
        Option.none⟩]) ∧
    (issuesOf (SpecValidator.validateRun tripSpec)).map errorsOf = some [] ∧
    (issuesOf (SpecValidator.validateRun tripSpec)).map
      (fun issues => issues.filter (fun i => i.severity == Severity.WARNING)) = some [] :=
  ⟨rfl, rfl, rfl⟩

/-- C10: an absolute path that is not under the manifest's output
directory is silently treated as untracked by `is_modified` — it returns
`false` unconditionally, whatever the manifest tracks. -/
theorem C10_absolute_outside_outdir (fs : FS) (m : GenerationManifest) (parts : List String)
    (h : dirLeads m.outDir parts = false) :
    m.is_modified fs (.abs parts) = false := by
  simp [GenerationManifest.is_modified, GenerationManifest.relOf, h]

/-- Witness for C10: a manifest under `out_dir = ["o"]` tracks a file
named `f`, and the same-named absolute path `/x/f` outside the output
directory still reports unmodified. -/
theorem C10_witness :
    GenerationManifest.is_modified []
      ⟨["o"], "1.0", Option.none, Option.none, [(["f"], ⟨"h", "t", 1⟩)]⟩
      (.abs ["x", "f"]) = false :=
  C10_absolute_outside_outdir [] ⟨["o"], "1.0", Option.none, Option.none, [(["f"], ⟨"h", "t", 1⟩)]⟩
    ["x", "f"] rfl

/-- C3: `should_regenerate_file` follows the decision table in precedence
order — force wins; then a missing file regenerates; then
non-incremental regenerates; then a user-modified file is preserved;
otherwise the unchanged file is preserved.  Consequently the returned
decision is `true` exactly when `force`, the file is absent, or the run
is non-incremental. -/
theorem C3_regeneration_policy (fs : FS) (cwd : List String) (p : PyPath)
    (m : GenerationManifest) :
    (∀ inc : Bool, should_regenerate_file fs cwd p m inc true = (true, "forced regeneration")) ∧
    (∀ inc : Bool, pathExists fs cwd p = false →
      should_regenerate_file fs cwd p m inc false = (true, "file does not exist")) ∧
    (pathExists fs cwd p = true →
      should_regenerate_file fs cwd p m false false =
        (true, "full regeneration (not incremental)")) ∧
    (pathExists fs cwd p = true → m.is_modified fs p = true →
      should_regenerate_file fs cwd p m true false =
        (false, "file was modified by user (skipping to preserve changes)")) ∧
    (pathExists fs cwd p = true → m.is_modified fs p = false →
      should_regenerate_file fs cwd p m true false = (false, "file unchanged (skipping)")) ∧
    (∀ inc force : Bool, (should_regenerate_file fs cwd p m inc force).1 = true ↔
      (force = true ∨ pathExists fs cwd p = false ∨ inc = false)) := by
  refine ⟨?_, ?_, ?_, ?_, ?_, ?_⟩
  · intro inc
    simp [should_regenerate_file]
  · intro inc hex
    simp [should_regenerate_file, hex]
  · intro hex
    simp [should_regenerate_file, hex]
  · intro hex hmod
    simp [should_regenerate_file, hex, hmod]
  · intro hex hmod
    simp [should_regenerate_file, hex, hmod]
  · intro inc force
    cases force <;> cases inc <;>
      cases hex : pathExists fs cwd p <;>
        cases hmod : m.is_modified fs p <;>
          simp [should_regenerate_file, hex, hmod]

/-- Witness for C3: with `force = false` on a file that does not exist,
the policy regenerates. -/
theorem C3_witness :
    should_regenerate_file [] [] (.abs ["o", "a"]) (GenerationManifest.emptyManifest ["o"])
      true false = (true, "file does not exist") :=
  (C3_regeneration_policy [] [] (.abs ["o", "a"]) (GenerationManifest.emptyManifest ["o"])).2.1
    true rfl

/-- C8: `validate` is deterministic and stateless across calls — calling
it again on the same spec, on the instance state left by the first call,
returns the identical `(state, result)` pair; and the diagnostic sequence
of a non-raising run is exactly the concatenation of the per-checker
diagnostic lists in checker-registration order. -/
theorem C8_validate_deterministic :
    (∀ (st : SpecValidator.VState) (spec : PyVal),
      SpecValidator.validate (SpecValidator.validate st spec).1 spec =
        SpecValidator.validate st spec) ∧
    (∀ spec : PyVal, (SpecValidator.runChecks spec).2 = Option.none →
      (SpecValidator.runChecks spec).1 =
        (SpecValidator.checkList.map fun c => (c spec).1).join) :=
  ⟨fun _ _ => rfl, fun spec h => vfor_issues_join SpecValidator.checkList (fun c => c spec) h⟩

/-- Witness for C8: the registration-order decomposition evaluated on the
trip-planner spec. -/
theorem C8_witness :
    (SpecValidator.runChecks tripSpec).1 =
      (SpecValidator.checkList.map fun c => (c tripSpec).1).join :=
  C8_validate_deterministic.2 tripSpec rfl

/-- The two key-order-permuted example documents of the claim. -/
def exAB : PyVal := .dict (.cons "a" (.int 1) (.cons "b" (.int 2) .nil))

/-- `{"b": 2, "a": 1}` — same mapping as `exAB`, keys in the other order. -/
def exBA : PyVal := .dict (.cons "b" (.int 2) (.cons "a" (.int 1) .nil))

/-- C5: `fingerprint_document` (`_hash_dict`) canonicalizes mapping key
order before hashing — any two documents equal up to mapping key order
(same recursive canonicalization) have the same fingerprint, in
particular the `{"a":1,"b":2}` / `{"b":2,"a":1}` pair — and every
fingerprint is a fixed-width 16-character lower-case-hex digest. -/
theorem C5_fingerprint_document :
    (∀ d₁ d₂ : PyVal, keyOrderEq d₁ d₂ →
      GenerationManifest.hash_dict d₁ = GenerationManifest.hash_dict d₂) ∧
    GenerationManifest.hash_dict exAB = GenerationManifest.hash_dict exBA ∧
    (∀ d : PyVal, (GenerationManifest.hash_dict d).length = 16 ∧
      ∀ c ∈ (GenerationManifest.hash_dict d).data, c ∈ "0123456789abcdef".data) := by
  have key : ∀ d₁ d₂ : PyVal, keyOrderEq d₁ d₂ →
      GenerationManifest.hash_dict d₁ = GenerationManifest.hash_dict d₂ := by
    intro d₁ d₂ h
    unfold keyOrderEq at h
    unfold GenerationManifest.hash_dict
    rw [← dumps_canon d₁, ← dumps_canon d₂, h]
  exact ⟨key, key _ _ rfl, fun d => ⟨fp16_length _, fun c hc => fp16_hex hc⟩⟩

/-- Witness for C5: the example pair really is equal up to key order, and
the general theorem applied to it gives equal fingerprints of width 16. -/
theorem C5_witness :
    keyOrderEq exAB exBA ∧
    GenerationManifest.hash_dict exAB = GenerationManifest.hash_dict exBA ∧
    (GenerationManifest.hash_dict exAB).length = 16 :=
  ⟨rfl, C5_fingerprint_document.1 exAB exBA rfl, (C5_fingerprint_document.2.2 exAB).1⟩

/-- The ERROR diagnostic `_validate_cross_references` emits for agent `a`
referencing the undefined tool `t`. -/
def undefinedToolIssue (a t : String) : ValidationIssue :=
  ⟨.ERROR, "agents." ++ a ++ ".tools",
   "Agent references undefined tool '" ++ t ++ "'",
   some "Define tool in tools section or remove reference"⟩

/-- `validateRun` in terms of `runChecks`. -/
theorem validateRun_eq (spec : PyVal) :
    SpecValidator.validateRun spec =
      (match SpecValidator.runChecks spec with
       | (is, Option.none) => .ok (!SpecValidator.hasErrors is, is)
       | (is, some e) => .error e) := by
  unfold SpecValidator.validateRun SpecValidator.validate
  cases SpecValidator.runChecks spec with
  | mk is err => cases err <;> rfl

/-- The cross-reference checker itself emits the undefined-tool ERROR,
provided the top-level `tools` mapping exists. -/
theorem crossref_ghost_mem
    {sd ags ts cd : PyDict} {ls : PyList} {a t : String}
    (hts : sd.lookup "tools" = some (.dict ts))
    (hags : sd.lookup "agents" = some (.dict ags))
    (hmem : (a, PyVal.dict cd) ∈ ags.entries)
    (hctools : cd.lookup "tools" = some (.list ls))
    (htl : PyVal.str t ∈ ls.toList)
    (htn : t ∉ ts.keys)
    (herr : (SpecValidator.validate_cross_references (.dict sd)).2 = Option.none) :
    undefinedToolIssue a t ∈ (SpecValidator.validate_cross_references (.dict sd)).1 := by
  have hca : pyContains (.dict sd) "agents" = .ok true := by simp [pyContains, hags]
  have hct : pyContains (.dict sd) "tools" = .ok true := by simp [pyContains, hts]
  have hst : pySubscript (.dict sd) "tools" = .ok (.dict ts) := by simp [pySubscript, hts]
  have hsa : pySubscript (.dict sd) "agents" = .ok (.dict ags) := by simp [pySubscript, hags]
  unfold SpecValidator.validate_cross_references at herr ⊢
  simp only [hca, hct, hst, hsa, vtry, pyKeys, pyItems, reduceIte] at herr ⊢
  obtain ⟨hA, hB⟩ := vseq_snd_none herr
  rw [vseq_fst_of_none hA]
  apply List.mem_append_left
  have hcc : pyContains (.dict cd) "tools" = .ok true := by simp [pyContains, hctools]
  have hsc : pySubscript (.dict cd) "tools" = .ok (.list ls) := by simp [pySubscript, hctools]
  have hinner := vfor_errs hA _ hmem
  have hset : setContains ts.keys (.str t) = .ok false := by
    have he : ∀ n, pyEq (PyVal.str t) (.str n) = decide (t = n) := fun n => rfl
    have hany : (ts.keys.any fun n => pyEq (PyVal.str t) (.str n)) = false := by
      rw [List.any_eq_false]
      intro n hn h
      rw [he n, decide_eq_true_eq] at h
      subst h
      exact htn hn
    simp only [setContains, hany]
  refine mem_vfor hA hmem ?_
  unfold SpecValidator.crossAgent at hinner ⊢
  simp only [hcc, hsc, vtry, reduceIte] at hinner ⊢
  refine mem_vfor hinner htl ?_
  simp only [vtry, hset, reduceIte, vAddS]
  exact List.mem_singleton.mpr rfl

/-- A Python list of string literals. -/
def ofStrings : List String → PyList
  | [] => .nil
  | t :: rest => .cons (.str t) (ofStrings rest)

/-- The per-agent loop of the cross-reference check, on an agent config
whose `tools` entry is a list of strings: it raises nothing and emits
exactly one ERROR per undefined reference, in list order, each naming
the agent and the missing tool. -/
theorem crossAgent_eq (names : List String) (a : String) (cd : PyDict) (ls : List String)
    (hctools : cd.lookup "tools" = some (.list (ofStrings ls))) :
    SpecValidator.crossAgent names a (.dict cd) =
      ((ls.filter fun t => decide (t ∉ names)).map (undefinedToolIssue a), Option.none) := by
  have hcc : pyContains (.dict cd) "tools" = .ok true := by simp [pyContains, hctools]
  have hsc : pySubscript (.dict cd) "tools" = .ok (.list (ofStrings ls)) := by
    simp [pySubscript, hctools]
  unfold SpecValidator.crossAgent
  simp only [hcc, hsc, vtry, reduceIte]
  clear hcc hsc hctools
  induction ls with
  | nil => rfl
  | cons t rest ih =>
    simp only [ofStrings, PyList.toList, vfor]
    rw [ih]
    by_cases hm : t ∈ names
    · have hset : setContains names (.str t) = .ok true := by
        simp only [setContains, Except.ok.injEq, List.any_eq_true]
        exact ⟨t, hm, by simp [show pyEq (PyVal.str t) (.str t) = decide (t = t) from rfl]⟩
      simp only [vtry, hset, reduceIte]
      simp [vseq, vok, List.filter_cons, hm]
    · have hset : setContains names (.str t) = .ok false := by
        simp only [setContains, Except.ok.injEq, List.any_eq_false]
        intro n hn h
        rw [show pyEq (PyVal.str t) (.str n) = decide (t = n) from rfl,
          decide_eq_true_eq] at h
        subst h
        exact hm hn
      simp only [vtry, hset, reduceIte]
      simp [vseq, vAddS, List.filter_cons, hm, undefinedToolIssue, pyStr]

/-- C2 counterexample: the spec whose only undefined-tool reference is
`worker → "ghost"` but which has no top-level `tools` key at all refutes
the claim as stated: `validate` returns normally with `is_valid = true` —
not `false` — and its full diagnostic list (evaluated exactly) contains
no ERROR at all, in particular no undefined-tool ERROR. -/
theorem C2_counterexample :
    SpecValidator.validateRun c2NoToolsSpec = .ok (true,
      [⟨.INFO, "agents.sup.policy", "Supervisor should specify routing policy",
        some "Recommended: 'policy': 'simple_router'"⟩,
       ⟨.WARNING, "agents.worker.llm_config", "LLM agent should specify llm_config with model",
        some "Example: 'llm_config': \x7b'model': 'gpt-4'\x7d"⟩,
       ⟨.INFO, "state_management", "No state management configured. Using defaults.",
        some "Consider adding state_management section for checkpointing config"⟩,
       ⟨.INFO, "root.description", "Consider adding a description field for documentation",
        Option.none⟩]) ∧
    isValidOf (SpecValidator.validateRun c2NoToolsSpec) ≠ some false ∧
    (issuesOf (SpecValidator.validateRun c2NoToolsSpec)).map errorsOf = some [] ∧
    undefinedToolIssue "worker" "ghost" ∉
      (issuesOf (SpecValidator.validateRun c2NoToolsSpec)).getD [] :=
  ⟨rfl, by decide, rfl, by decide⟩

/-- C2 (amended): the undefined-tool cross-reference check runs only when
the spec has both an `agents` and a `tools` top-level mapping.  Under that
condition every agent `tools` entry naming a tool absent from the `tools`
mapping yields the ERROR naming both the agent and the tool, and
`is_valid = false`; the per-agent loop emits exactly one such ERROR per
undefined reference, in order.  Without a top-level `tools` key the check
is skipped entirely: the claimed scenario spec yields exactly one ERROR
(missing supervisor), and gains the second, undefined-tool ERROR exactly
when an empty `"tools": \x7b\x7d` mapping is added (full diagnostic lists
evaluated exactly). -/
theorem C2_undefined_tool_amended :
    (∀ (sd ags ts cd : PyDict) (ls : PyList) (a t : String) (v : Bool)
       (issues : List ValidationIssue),
      sd.lookup "tools" = some (.dict ts) →
      sd.lookup "agents" = some (.dict ags) →
      (a, PyVal.dict cd) ∈ ags.entries →
      cd.lookup "tools" = some (.list ls) →
      PyVal.str t ∈ ls.toList →
      t ∉ ts.keys →
      SpecValidator.validateRun (.dict sd) = .ok (v, issues) →
      undefinedToolIssue a t ∈ issues ∧ v = false) ∧
    (∀ (names : List String) (a : String) (cd : PyDict) (ls : List String),
      cd.lookup "tools" = some (.list (ofStrings ls)) →
      SpecValidator.crossAgent names a (.dict cd) =
        ((ls.filter fun t => decide (t ∉ names)).map (undefinedToolIssue a), Option.none)) ∧
    SpecValidator.validateRun c2ScenarioSpec = .ok (false,
      [⟨.ERROR, "agents", "At least one supervisor agent is required",
        some "Add an agent with 'kind': 'supervisor'"⟩,
       ⟨.WARNING, "agents.worker.llm_config", "LLM agent should specify llm_config with model",
        some "Example: 'llm_config': \x7b'model': 'gpt-4'\x7d"⟩,
       ⟨.INFO, "state_management", "No state management configured. Using defaults.",
        some "Consider adding state_management section for checkpointing config"⟩,
       ⟨.INFO, "root.description", "Consider adding a description field for documentation",
        Option.none⟩]) ∧
    SpecValidator.validateRun c2ScenarioToolsSpec = .ok (false,
      [⟨.ERROR, "agents", "At least one supervisor agent is required",
        some "Add an agent with 'kind': 'supervisor'"⟩,
       ⟨.WARNING, "agents.worker.llm_config", "LLM agent should specify llm_config with model",
        some "Example: 'llm_config': \x7b'model': 'gpt-4'\x7d"⟩,
       ⟨.INFO, "state_management", "No state management configured. Using defaults.",
        some "Consider adding state_management section for checkpointing config"⟩,
       undefinedToolIssue "worker" "ghost",
       ⟨.INFO, "root.description", "Consider adding a description field for documentation",
        Option.none⟩]) ∧
    (issuesOf (SpecValidator.validateRun c2ScenarioSpec)).map errorsOf =
      some [⟨.ERROR, "agents", "At least one supervisor agent is required",
             some "Add an agent with 'kind': 'supervisor'"⟩] ∧
    (issuesOf (SpecValidator.validateRun c2ScenarioToolsSpec)).map errorsOf =
      some [⟨.ERROR, "agents", "At least one supervisor agent is required",
             some "Add an agent with 'kind': 'supervisor'"⟩,
            undefinedToolIssue "worker" "ghost"] := by
  refine ⟨?_, crossAgent_eq, rfl, rfl, rfl, rfl⟩
  intro sd ags ts cd ls a t v issues hts hags hmem hctools htl htn hrun
  rw [validateRun_eq] at hrun
  cases hrc : SpecValidator.runChecks (.dict sd) with
  | mk is err =>
    rw [hrc] at hrun
    cases err with
    | some e => simp at hrun
    | none =>
      simp only [Except.ok.injEq, Prod.mk.injEq] at hrun
      obtain ⟨hv, hiss⟩ := hrun
      subst hiss
      have hvempty : (vfor SpecValidator.checkList fun c => c (.dict sd)).2 = Option.none := by
        rw [show (vfor SpecValidator.checkList fun c => c (.dict sd)) =
          SpecValidator.runChecks (.dict sd) from rfl, hrc]
      have hmemchk : SpecValidator.validate_cross_references ∈ SpecValidator.checkList := by
        unfold SpecValidator.checkList
        apply List.mem_cons_of_mem
        apply List.mem_cons_of_mem
        apply List.mem_cons_of_mem
        apply List.mem_cons_of_mem
        apply List.mem_cons_of_mem
        apply List.mem_cons_of_mem
        apply List.mem_cons_of_mem
        apply List.mem_cons_of_mem
        apply List.mem_cons_of_mem
        apply List.mem_cons_of_mem
        exact List.mem_cons_self _ _
      have hcrerr : (SpecValidator.validate_cross_references (.dict sd)).2 = Option.none :=
        vfor_errs hvempty _ hmemchk
      have hghost : undefinedToolIssue a t ∈
          (SpecValidator.validate_cross_references (.dict sd)).1 :=
        crossref_ghost_mem hts hags hmem hctools htl htn hcrerr
      have hmemall : undefinedToolIssue a t ∈ is := by
        have := mem_vfor hvempty hmemchk hghost
        rw [show (vfor SpecValidator.checkList fun c => c (.dict sd)) =
          SpecValidator.runChecks (.dict sd) from rfl, hrc] at this
        exact this
      refine ⟨hmemall, ?_⟩
      rw [← hv, hasErrors_of_mem hmemall rfl]
      rfl

/-- Witness for C2's amended general statements, applied to the scenario
spec with the empty `tools` mapping added and to its worker agent. -/
theorem C2_witness :
    undefinedToolIssue "worker" "ghost" ∈
      (issuesOf (SpecValidator.validateRun c2ScenarioToolsSpec)).getD [] ∧
    SpecValidator.crossAgent [] "worker" (.dict c2WorkerCfg) =
      ((["ghost"].filter fun t => decide (t ∉ ([] : List String))).map
        (undefinedToolIssue "worker"), Option.none) :=
  ⟨(C2_undefined_tool_amended.1 c2SdTools c2AgsDict .nil c2WorkerCfg
      (.cons (.str "ghost") .nil) "worker" "ghost" false
      ((issuesOf (SpecValidator.validateRun c2ScenarioToolsSpec)).getD [])
      rfl rfl (List.mem_singleton.mpr rfl) rfl (List.mem_singleton.mpr rfl)
      (List.not_mem_nil "ghost") rfl).1,
   C2_undefined_tool_amended.2.1 [] "worker" c2WorkerCfg ["ghost"] rfl⟩

/-- `relative_to` success implies the `is_modified` relativization agrees. -/
theorem relOf_of_relTo {out : List String} {p : PyPath} {r : List String}
    (h : relTo out p = .ok r) : GenerationManifest.relOf out p = some r := by
  cases p with
  | rel parts => simp [relTo] at h
  | abs parts =>
    simp only [relTo] at h
    by_cases hd : dirLeads out parts = true
    · rw [if_pos hd] at h
      simp only [Except.ok.injEq] at h
      subst h
      simp [GenerationManifest.relOf, hd]
    · rw [if_neg hd] at h
      simp at h

/-- `is_modified` on an explicitly given manifest record. -/
theorem GenerationManifest.is_modified_mk (fs : FS) (out : List String) (ver : String)
    (gat : Option String) (ss : Option SpecSummary)
    (recs : List (List String × FileRecord)) (p : PyPath) :
    GenerationManifest.is_modified fs ⟨out, ver, gat, ss, recs⟩ p =
      (match GenerationManifest.relOf out p with
       | Option.none => false
       | some r =>
         match GenerationManifest.lookupRec recs r with
         | Option.none => false
         | some rec =>
           match lookupFS fs (out ++ r) with
           | Option.none => true
           | some content => GenerationManifest.hash_file content != rec.hash) := rfl

/-- C4: `is_modified(p)` is true exactly when `p` relativizes into the
output directory, is tracked, and (the file is gone from disk or its
current fingerprint differs from the recorded one); untracked paths are
always false.  After a `save`, the manifest it produced (which `load`
returns unchanged) reports nothing as modified on the unchanged file
system, reports a produced file as modified immediately after it is
deleted, and immediately after it is overwritten with content of a
different fingerprint. -/
theorem C4_is_modified :
    (∀ (fs : FS) (m : GenerationManifest) (p : PyPath),
      m.is_modified fs p = true ↔
        ∃ r, GenerationManifest.relOf m.outDir p = some r ∧
          ∃ rec, GenerationManifest.lookupRec m.files r = some rec ∧
            (lookupFS fs (m.outDir ++ r) = Option.none ∨
             ∃ c, lookupFS fs (m.outDir ++ r) = some c ∧
               GenerationManifest.hash_file c ≠ rec.hash)) ∧
    (∀ (fs : FS) (cwd : List String) (m : GenerationManifest) (spec : PyVal)
       (files : List PyPath) (now : String) (m' : GenerationManifest),
      GenerationManifest.save fs cwd m spec files now = .ok m' →
      m'.outDir = m.outDir ∧
      GenerationManifest.saveFileRecs fs cwd m.outDir now files = .ok m'.files ∧
      GenerationManifest.load m.outDir (some m') = m') ∧
    (∀ (fs : FS) (cwd out : List String) (now : String) (files : List PyPath)
       (recs : List (List String × FileRecord)),
      GenerationManifest.saveFileRecs fs cwd out now files = .ok recs →
      ∀ (ver : String) (gat : Option String) (ss : Option SpecSummary),
        (∀ p : PyPath,
          GenerationManifest.is_modified fs ⟨out, ver, gat, ss, recs⟩ p = false) ∧
        (∀ p ∈ files, pathExists fs cwd p = true → ∀ r, relTo out p = .ok r →
          GenerationManifest.is_modified (delFS fs (absolutize cwd p))
            ⟨out, ver, gat, ss, recs⟩ p = true ∧
          (∀ c' : Bytes,
            GenerationManifest.hash_file c' ≠
              GenerationManifest.hash_file ((lookupFS fs (absolutize cwd p)).getD []) →
            GenerationManifest.is_modified (setFS fs (absolutize cwd p) c')
              ⟨out, ver, gat, ss, recs⟩ p = true))) := by
  refine ⟨?_, ?_, ?_⟩
  · intro fs m p
    unfold GenerationManifest.is_modified
    constructor
    · intro h
      split at h
      · exact Bool.noConfusion h
      · next r hrel =>
        split at h
        · exact Bool.noConfusion h
        · next rec hrec =>
          split at h
          · next hfs => exact ⟨r, hrel, rec, hrec, Or.inl hfs⟩
          · next content hfs =>
            exact ⟨r, hrel, rec, hrec, Or.inr ⟨content, hfs, by simpa [bne_iff_ne] using h⟩⟩
    · rintro ⟨r, hrel, rec, hrec, hdisj⟩
      simp only [hrel, hrec]
      rcases hdisj with hfs | ⟨c, hfs, hne⟩
      · simp [hfs]
      · simp only [hfs, bne_iff_ne, ne_eq, decide_eq_true_eq]
        exact hne
  · intro fs cwd m spec files now m' h
    unfold GenerationManifest.save at h
    cases h1 : pyGet spec "version" (.str "1.0.0") with
    | error e => rw [h1] at h; simp at h
    | ok ver =>
      rw [h1] at h
      cases h2 : pyGet spec "schema_version" (.int 1) with
      | error e => rw [h2] at h; simp at h
      | ok sv =>
        rw [h2] at h
        cases h3 : GenerationManifest.pyGetKeys spec "agents" with
        | error e => rw [h3] at h; simp at h
        | ok ags =>
          rw [h3] at h
          cases h4 : GenerationManifest.pyGetKeys spec "tools" with
          | error e => rw [h4] at h; simp at h
          | ok tls =>
            rw [h4] at h
            cases h5 : GenerationManifest.saveFileRecs fs cwd m.outDir now files with
            | error e => rw [h5] at h; simp at h
            | ok recs =>
              rw [h5] at h
              simp only [Except.ok.injEq] at h
              subst h
              exact ⟨rfl, rfl, rfl⟩
  · intro fs cwd out now files recs hsave ver gat ss
    constructor
    · intro p
      rw [GenerationManifest.is_modified_mk]
      split
      · rfl
      · split
        · rfl
        · next rec hrec =>
          obtain ⟨c, hc, hr2⟩ := GenerationManifest.saveFileRecs_sound hsave hrec
          subst hr2
          simp [hc]
    · intro p hp hex r hr
      have hlk := GenerationManifest.saveFileRecs_lookup hsave hp hex hr
      have habs : absolutize cwd p = out ++ r := relTo_ok_abs hr cwd
      have hro : GenerationManifest.relOf out p = some r := relOf_of_relTo hr
      constructor
      · rw [GenerationManifest.is_modified_mk]
        simp only [hro, hlk]
        rw [← habs, lookupFS_delFS_self]
      · intro c' hne
        rw [GenerationManifest.is_modified_mk]
        simp only [hro, hlk]
        rw [← habs, lookupFS_setFS_self]
        simp only [GenerationManifest.recFor, bne_iff_ne, ne_eq]
        exact fun hcontra => hne hcontra

/-- The file system of the C4 witness: one file `o/f.txt` with bytes
`[1, 2, 3]`. -/
def c4FS : FS := [(["o", "f.txt"], [1, 2, 3])]

/-- The records `save` produces for the C4 witness. -/
def c4Recs : List (List String × FileRecord) :=
  [(["f.txt"], ⟨GenerationManifest.hash_file [1, 2, 3], "t", 3⟩)]

/-- Witness for C4: on a one-file output directory, after `save` the file
is unmodified; deleting it or overwriting it with different-fingerprint
content flips `is_modified` to true. -/
theorem C4_witness :
    GenerationManifest.is_modified c4FS ⟨["o"], "1.0", some "t", Option.none, c4Recs⟩
        (.abs ["o", "f.txt"]) = false ∧
    GenerationManifest.is_modified (delFS c4FS ["o", "f.txt"])
        ⟨["o"], "1.0", some "t", Option.none, c4Recs⟩ (.abs ["o", "f.txt"]) = true ∧
    GenerationManifest.is_modified (setFS c4FS ["o", "f.txt"] [9, 9])
        ⟨["o"], "1.0", some "t", Option.none, c4Recs⟩ (.abs ["o", "f.txt"]) = true := by
  have hsave : GenerationManifest.saveFileRecs c4FS [] ["o"] "t"
      [PyPath.abs ["o", "f.txt"]] = .ok c4Recs := rfl
  have h := C4_is_modified.2.2 c4FS [] ["o"] "t" _ _ hsave "1.0" (some "t") Option.none
  have h2 := h.2 (PyPath.abs ["o", "f.txt"]) (List.mem_singleton.mpr rfl) rfl ["f.txt"] rfl
  exact ⟨h.1 _, h2.1, h2.2 [9, 9] (by decide)⟩

/-- C6: `detect_spec_changes` with no prior spec summary reports first
generation, every current agent/tool name as added and nothing removed,
with `schema_version_changed = false`; with a prior summary it reports
the set differences of the recorded and current name sets, and
`schema_version_changed` is exactly Python `!=` on the two
`schema_version` values (each defaulting to 1 when absent).  The third
conjunct states that the computed added/removed lists are, as finite
sets, exactly the claimed set differences. -/
theorem C6_detect_spec_changes :
    (∀ (m : GenerationManifest) (new_spec : PyVal) (na nt : List String),
      m.specSummary = Option.none →
      GenerationManifest.pyGetKeys new_spec "agents" = .ok na →
      GenerationManifest.pyGetKeys new_spec "tools" = .ok nt →
      GenerationManifest.detect_spec_changes m new_spec = .ok ⟨na, [], nt, [], false, true⟩) ∧
    (∀ (m : GenerationManifest) (old : SpecSummary) (new_spec : PyVal)
       (na nt : List String) (sv : PyVal),
      m.specSummary = some old →
      GenerationManifest.pyGetKeys new_spec "agents" = .ok na →
      GenerationManifest.pyGetKeys new_spec "tools" = .ok nt →
      pyGet new_spec "schema_version" (.int 1) = .ok sv →
      GenerationManifest.detect_spec_changes m new_spec =
        .ok ⟨na.filter (fun a => decide (a ∉ old.agents)),
             old.agents.filter (fun a => decide (a ∉ na)),
             nt.filter (fun t => decide (t ∉ old.tools)),
             old.tools.filter (fun t => decide (t ∉ nt)),
             !pyEq old.schemaVersion sv, false⟩) ∧
    (∀ (l t : List String),
      (l.filter fun a => decide (a ∉ t)).toFinset = l.toFinset \ t.toFinset) := by
  refine ⟨?_, ?_, ?_⟩
  · intro m new_spec na nt hsum h1 h2
    unfold GenerationManifest.detect_spec_changes
    rw [hsum, h1, h2]
  · intro m old new_spec na nt sv hsum h1 h2 h3
    unfold GenerationManifest.detect_spec_changes
    rw [hsum, h1, h2, h3]
  · intro l t
    ext x
    simp [List.mem_filter]

/-- The prior-run spec summary used by the C6 witness. -/
def c6OldSummary : SpecSummary := ⟨"h", .str "1.0.0", .int 1, ["a", "b"], ["t"]⟩

/-- The C6 witness manifest, recording `c6OldSummary`. -/
def c6Manifest : GenerationManifest := ⟨["o"], "1.0", some "t0", some c6OldSummary, []⟩

/-- The new spec of the C6 witness: agents `{b, c}`, no tools,
`schema_version = 2`. -/
def c6NewSpec : PyVal :=
  .dict (.cons "agents" (.dict (.cons "b" .none (.cons "c" .none .nil)))
    (.cons "schema_version" (.int 2) .nil))

/-- Witness for C6: agent `c` is added, agent `a` removed, tool `t`
removed, and the schema-version change is flagged. -/
theorem C6_witness :
    GenerationManifest.detect_spec_changes c6Manifest c6NewSpec =
      .ok ⟨["b", "c"].filter (fun a => decide (a ∉ c6OldSummary.agents)),
           c6OldSummary.agents.filter (fun a => decide (a ∉ ["b", "c"])),
           [].filter (fun t => decide (t ∉ c6OldSummary.tools)),
           c6OldSummary.tools.filter (fun t => decide (t ∉ ([] : List String))),
           !pyEq c6OldSummary.schemaVersion (.int 2), false⟩ :=
  C6_detect_spec_changes.2.1 c6Manifest c6OldSummary c6NewSpec ["b", "c"] [] (.int 2)
    rfl rfl rfl rfl

/-- C7: `save` fully replaces the manifest's tracked-file record.  The
new record tracks exactly the produced paths that exist on disk (keyed by
their out_dir-relative path, each carrying the content fingerprint, the
generation timestamp and the byte size), the record written by `save` is
computed solely from this run's `produced_files` (anything a prior run
tracked is dropped), and any path untracked by the new manifest — in
particular a previously produced file left on disk — reports
`is_modified = false`. -/
theorem C7_save_replaces :
    (∀ (fs : FS) (cwd out : List String) (now : String) (files : List PyPath)
       (recs : List (List String × FileRecord)),
      GenerationManifest.saveFileRecs fs cwd out now files = .ok recs →
      (∀ r : List String, (GenerationManifest.lookupRec recs r).isSome = true ↔
        ∃ p ∈ files, pathExists fs cwd p = true ∧ relTo out p = .ok r) ∧
      (∀ (r : List String) (rec : FileRecord),
        GenerationManifest.lookupRec recs r = some rec →
        ∃ c, lookupFS fs (out ++ r) = some c ∧
          rec = ⟨GenerationManifest.hash_file c, now, c.length⟩)) ∧
    (∀ (fs : FS) (cwd : List String) (m : GenerationManifest) (spec : PyVal)
       (files : List PyPath) (now : String) (m' : GenerationManifest),
      GenerationManifest.save fs cwd m spec files now = .ok m' →
      m'.outDir = m.outDir ∧
      GenerationManifest.saveFileRecs fs cwd m.outDir now files = .ok m'.files) ∧
    (∀ (m' : GenerationManifest) (fs2 : FS) (r : List String),
      GenerationManifest.lookupRec m'.files r = Option.none →
      GenerationManifest.is_modified fs2 m' (.abs (m'.outDir ++ r)) = false) := by
  refine ⟨?_, ?_, ?_⟩
  · intro fs cwd out now files recs hsave
    exact ⟨GenerationManifest.saveFileRecs_tracked hsave,
           fun r rec hl => GenerationManifest.saveFileRecs_sound hsave hl⟩
  · intro fs cwd m spec files now m' h
    unfold GenerationManifest.save at h
    cases h1 : pyGet spec "version" (.str "1.0.0") with
    | error e => rw [h1] at h; simp at h
    | ok ver =>
      rw [h1] at h
      cases h2 : pyGet spec "schema_version" (.int 1) with
      | error e => rw [h2] at h; simp at h
      | ok sv =>
        rw [h2] at h
        cases h3 : GenerationManifest.pyGetKeys spec "agents" with
        | error e => rw [h3] at h; simp at h
        | ok ags =>
          rw [h3] at h
          cases h4 : GenerationManifest.pyGetKeys spec "tools" with
          | error e => rw [h4] at h; simp at h
          | ok tls =>
            rw [h4] at h
            cases h5 : GenerationManifest.saveFileRecs fs cwd m.outDir now files with
            | error e => rw [h5] at h; simp at h
            | ok recs =>
              rw [h5] at h
              simp only [Except.ok.injEq] at h
              subst h
              exact ⟨rfl, rfl⟩
  · intro m' fs2 r h
    have hrel : GenerationManifest.relOf m'.outDir (.abs (m'.outDir ++ r)) = some r := by
      simp [GenerationManifest.relOf, dirLeads_append, List.drop_left]
    unfold GenerationManifest.is_modified
    simp only [hrel, h]

/-- The C7 witness file system: the new run produced `o/f.txt`, while the
prior run's `o/old.txt` is still on disk. -/
def c7FS : FS := [(["o", "f.txt"], [1, 2, 3]), (["o", "old.txt"], [7])]

/-- Witness for C7: with the fresh manifest tracking only `f.txt`, the
prior run's `old.txt` — absent from this run's `produced_files` — is
untracked, so `is_modified` on it is false even though it is on disk. -/
theorem C7_witness :
    GenerationManifest.is_modified c7FS
      ⟨["o"], "1.0", some "t", Option.none, c4Recs⟩ (.abs (["o"] ++ ["old.txt"])) = false :=
  C7_save_replaces.2.2 ⟨["o"], "1.0", some "t", Option.none, c4Recs⟩ c7FS ["old.txt"] rfl
